import Mathlib

/-!
Shallow embedding of the "evo" simulation engine (TypeScript sources under
src/) and proofs about it.

Conventions of the embedding:
- JavaScript numbers are modelled by the rationals ℚ wherever the code only
  performs field operations and comparisons; the geometric parts of the
  behaviour engine (which call Math.hypot / Math.sqrt / Math.sin / Math.cos)
  are modelled generically over a linear ordered field together with a record
  of those math functions, instantiated with the real functions in theorems.
- JavaScript `Map` objects are modelled by association lists with
  first-occurrence lookup, replace-first insertion and filtering deletion;
  `Set` objects by duplicate-free insertion-ordered lists.
- Calls to `Math.random()` and `uuidv4()` are threaded as explicit
  parameters (environment records), since the code draws them externally.
-/

namespace Evo

/-! ## JavaScript Map / Set model -/

/-- Lookup in an association list (models `Map.get`). -/
def mget {κ β : Type} [DecidableEq κ] (m : List (κ × β)) (k : κ) : Option β :=
  (m.find? (fun e => e.1 = k)).map (fun e => e.2)

/-- Insert-or-update in an association list (models `Map.set`): replaces the
first entry with the given key, else appends. -/
def mset {κ β : Type} [DecidableEq κ] : List (κ × β) → κ → β → List (κ × β)
  | [], k, v => [(k, v)]
  | e :: t, k, v => if e.1 = k then (k, v) :: t else e :: mset t k v

/-- Deletion from an association list (models `Map.delete`). -/
def mdel {κ β : Type} [DecidableEq κ] (m : List (κ × β)) (k : κ) : List (κ × β) :=
  m.filter (fun e => e.1 ≠ k)

/-- Set insertion (models `Set.add` on an insertion-ordered set). -/
def setAdd (s : List String) (x : String) : List String :=
  if x ∈ s then s else s ++ [x]

/-- Set deletion (models `Set.delete`). -/
def setDel (s : List String) (x : String) : List String :=
  s.filter (fun y => y ≠ x)

theorem mget_nil {κ β : Type} [DecidableEq κ] (k : κ) : mget ([] : List (κ × β)) k = none := rfl

theorem mget_mset_self {κ β : Type} [DecidableEq κ] (m : List (κ × β)) (k : κ) (v : β) :
    mget (mset m k v) k = some v := by
  induction m with
  | nil => simp [mget, mset, List.find?]
  | cons e t ih =>
      by_cases h : e.1 = k
      · simp [mget, mset, h, List.find?]
      · simpa [mget, mset, h, List.find?] using ih

theorem mget_mset_ne {κ β : Type} [DecidableEq κ] (m : List (κ × β)) (k k' : κ) (v : β)
    (h : k' ≠ k) : mget (mset m k v) k' = mget m k' := by
  have hk : k ≠ k' := Ne.symm h
  induction m with
  | nil => simp [mget, mset, List.find?, hk]
  | cons e t ih =>
      by_cases he : e.1 = k
      · subst he
        simp [mget, mset, List.find?, hk]
      · by_cases he' : e.1 = k'
        · simp [mget, mset, he, he', List.find?, h]
        · simpa [mget, mset, he, he', List.find?] using ih

theorem mget_mdel_self {κ β : Type} [DecidableEq κ] (m : List (κ × β)) (k : κ) :
    mget (mdel m k) k = none := by
  induction m with
  | nil => rfl
  | cons e t ih =>
      by_cases h : e.1 = k
      · simp only [mget, mdel, h, List.filter] at ih ⊢
        simp_all [List.filter]
      · simp_all [mget, mdel, List.filter, List.find?]

theorem mget_mdel_ne {κ β : Type} [DecidableEq κ] (m : List (κ × β)) (k k' : κ)
    (h : k' ≠ k) : mget (mdel m k) k' = mget m k' := by
  induction m with
  | nil => rfl
  | cons e t ih =>
      by_cases he : e.1 = k
      · subst he
        have h1 : ¬e.1 = k' := fun hc => h hc.symm
        simpa [mget, mdel, List.filter, List.find?, h1] using ih
      · by_cases he' : e.1 = k'
        · simp [mget, mdel, List.filter, List.find?, he, he', h]
        · simpa [mget, mdel, List.filter, List.find?, he, he'] using ih

/-- `mget m k = none` exactly when no entry of `m` has key `k`. -/
theorem mget_eq_none_iff {κ β : Type} [DecidableEq κ] (m : List (κ × β)) (k : κ) :
    mget m k = none ↔ ∀ e ∈ m, e.1 ≠ k := by
  induction m with
  | nil => simp [mget]
  | cons e t ih =>
      by_cases h : e.1 = k
      · simp [mget, List.find?, h]
      · simp only [mget, List.find?, h] at ih ⊢
        simp_all

theorem mget_eq_some_mem {κ β : Type} [DecidableEq κ] {m : List (κ × β)} {k : κ} {v : β}
    (h : mget m k = some v) : (k, v) ∈ m := by
  induction m with
  | nil => simp [mget] at h
  | cons e t ih =>
      by_cases he : e.1 = k
      · have : e.2 = v := by simpa [mget, List.find?, he] using h
        have : e = (k, v) := by
          cases e; simp_all
        simp [this]
      · have := ih (by simpa [mget, List.find?, he] using h)
        exact List.mem_cons_of_mem _ this

/-! ## SpatialGrid (src/utils/spatialGrid.ts)

Cell keys `"cellX,cellZ"` are modelled as pairs of integers (the string
encoding of a pair of integers is injective). Positions are triplets of
rationals; the grid uses components 0 and 2. -/

/-- A 3-component position `[x, y, z]` (the `Triplet` of the source). -/
def Triplet : Type := ℚ × ℚ × ℚ

instance : DecidableEq Triplet := by unfold Triplet; infer_instance

/-- The spatial grid structure (`SpatialGrid` in the source). -/
structure SpatialGrid where
  cellSize : ℚ
  cells : List ((ℤ × ℤ) × List String)
  entityCells : List (String × (ℤ × ℤ))
  deriving DecidableEq

/-- `createSpatialGrid(cellSize = 5)`. -/
def createSpatialGrid (cellSize : ℚ := 5) : SpatialGrid :=
  { cellSize := cellSize, cells := [], entityCells := [] }

/-- `getCellKey(x, z, cellSize)`: `(Math.floor(x/cellSize), Math.floor(z/cellSize))`. -/
def getCellKey (x z cellSize : ℚ) : ℤ × ℤ :=
  (Int.floor (x / cellSize), Int.floor (z / cellSize))

/-- `gridInsert(grid, id, position)`: buckets `id` into the cell of
`position` and records the cell key in `entityCells`. Note: it does not
remove `id` from a previously occupied cell. -/
def gridInsert (grid : SpatialGrid) (id : String) (position : Triplet) : SpatialGrid :=
  let key := getCellKey position.1 position.2.2 grid.cellSize
  let cells :=
    match mget grid.cells key with
    | none => mset grid.cells key [id]
    | some s => mset grid.cells key (setAdd s id)
  { grid with cells := cells, entityCells := mset grid.entityCells id key }

/-- `gridRemove(grid, id)`: removes `id` from its current cell (pruning the
cell if it empties) and from `entityCells`; no-op if `id` is absent. -/
def gridRemove (grid : SpatialGrid) (id : String) : SpatialGrid :=
  match mget grid.entityCells id with
  | none => grid
  | some oldKey =>
      let cells :=
        match mget grid.cells oldKey with
        | none => grid.cells
        | some s =>
            let s' := setDel s id
            if s' = [] then mdel grid.cells oldKey else mset grid.cells oldKey s'
      { grid with cells := cells, entityCells := mdel grid.entityCells id }

/-- `gridUpdate(grid, id, newPosition)`: recomputes the cell key and only
moves the id between cells when the key changed. -/
def gridUpdate (grid : SpatialGrid) (id : String) (newPosition : Triplet) : SpatialGrid :=
  let newKey := getCellKey newPosition.1 newPosition.2.2 grid.cellSize
  let oldKey := mget grid.entityCells id
  if oldKey = some newKey then grid
  else
    let cells₁ :=
      match oldKey with
      | none => grid.cells
      | some k =>
          match mget grid.cells k with
          | none => grid.cells
          | some s =>
              let s' := setDel s id
              if s' = [] then mdel grid.cells k else mset grid.cells k s'
    let cells₂ :=
      match mget cells₁ newKey with
      | none => mset cells₁ newKey [id]
      | some s => mset cells₁ newKey (setAdd s id)
    { grid with cells := cells₂, entityCells := mset grid.entityCells id newKey }

/-- The list of cell offsets `-cellRadius .. cellRadius` scanned by
`gridQueryRadius` (empty when `cellRadius < 0`, as in the source loop). -/
def queryOffsets (cellRadius : ℤ) : List ℤ :=
  (List.range (2 * cellRadius + 1).toNat).map (fun (i : ℕ) => -cellRadius + (i : ℤ))

/-- `gridQueryRadius(grid, x, z, radius)`: unions the id sets of all cells
within `ceil(radius / cellSize)` cell-steps of the cell containing (x, z). -/
def gridQueryRadius (grid : SpatialGrid) (x z radius : ℚ) : List String :=
  let cellSize := grid.cellSize
  let cellRadius := Int.ceil (radius / cellSize)
  let centerCellX := Int.floor (x / cellSize)
  let centerCellZ := Int.floor (z / cellSize)
  (queryOffsets cellRadius).flatMap (fun dx =>
    (queryOffsets cellRadius).flatMap (fun dz =>
      match mget grid.cells (centerCellX + dx, centerCellZ + dz) with
      | none => []
      | some cell => cell))

/-- `gridClear(grid)`. -/
def gridClear (grid : SpatialGrid) : SpatialGrid :=
  { grid with cells := [], entityCells := [] }

/-- `rebuildGrid(grid, entities)`: clears and reinserts every entity. -/
def rebuildGrid (grid : SpatialGrid) (entities : List (String × Triplet)) : SpatialGrid :=
  entities.foldl (fun g e => gridInsert g e.1 e.2) (gridClear grid)

/-! ## Genetics (genome half of src/utils — `Genome`, `clamp`, `mutate`)

`Math.random()` draws are passed as explicit parameters in `[0, 1]`. -/

/-- The three heritable traits (`Genome` in the source). -/
structure Genome (α : Type) where
  speed : α
  size : α
  sense : α
  deriving DecidableEq

/-- Lower and upper bound of `SPEED_RANGE`. -/
def SPEED_MIN : ℚ := 1/2
def SPEED_MAX : ℚ := 2

/-- Lower and upper bound of `SIZE_RANGE`. -/
def SIZE_MIN : ℚ := 3/10
def SIZE_MAX : ℚ := 1

/-- Lower and upper bound of `SENSE_RANGE`. -/
def SENSE_MIN : ℚ := 3
def SENSE_MAX : ℚ := 15

/-- `MUTATION_RANGE` (±5%). -/
def MUTATION_RANGE : ℚ := 1/20

/-- `clamp(value, min, max) = Math.max(min, Math.min(max, value))`. -/
def clampQ (value min' max' : ℚ) : ℚ := max min' (min max' value)

/-- `randomRange(magnitude) = (Math.random() * 2 - 1) * magnitude`, with the
`Math.random()` draw `u` passed explicitly. -/
def randomRange (u magnitude : ℚ) : ℚ := (u * 2 - 1) * magnitude

/-- `randomInRange(min, max) = min + Math.random() * (max - min)`, with the
`Math.random()` draw `u` passed explicitly. -/
def randomInRange (u min' max' : ℚ) : ℚ := min' + u * (max' - min')

/-- `createRandomGenome()` with the three `Math.random()` draws explicit. -/
def createRandomGenome (u₁ u₂ u₃ : ℚ) : Genome ℚ :=
  { speed := randomInRange u₁ SPEED_MIN SPEED_MAX
    size := randomInRange u₂ SIZE_MIN SIZE_MAX
    sense := randomInRange u₃ SENSE_MIN SENSE_MAX }

/-- `mutate(genome)` with the three `Math.random()` draws explicit: each
trait is perturbed multiplicatively by `1 + randomRange(MUTATION_RANGE)` and
clamped to its declared range. -/
def mutate (genome : Genome ℚ) (u₁ u₂ u₃ : ℚ) : Genome ℚ :=
  { speed := clampQ (genome.speed * (1 + randomRange u₁ MUTATION_RANGE)) SPEED_MIN SPEED_MAX
    size := clampQ (genome.size * (1 + randomRange u₂ MUTATION_RANGE)) SIZE_MIN SIZE_MAX
    sense := clampQ (genome.sense * (1 + randomRange u₃ MUTATION_RANGE)) SENSE_MIN SENSE_MAX }

/-! ## Constants (src/constants/physics.ts, src/utils/steering.ts, Blob.tsx) -/

/-- `ARENA_RADIUS = 17`. -/
def ARENA_RADIUS {a : Type} [LinearOrderedField a] : a := 17

/-- `SOFT_BOUNDARY = 14`. -/
def SOFT_BOUNDARY {a : Type} [LinearOrderedField a] : a := 14

/-- `SPAWN_RADIUS = 16.5`. -/
def SPAWN_RADIUS {a : Type} [LinearOrderedField a] : a := 33/2

/-- `HUNT_FORCE = 4.0`. -/
def HUNT_FORCE {a : Type} [LinearOrderedField a] : a := 4

/-- `WANDER_FORCE = 0.8`. -/
def WANDER_FORCE {a : Type} [LinearOrderedField a] : a := 4/5

/-- `SOFT_RETURN_FORCE = 3.0`. -/
def SOFT_RETURN_FORCE {a : Type} [LinearOrderedField a] : a := 3

/-- `FLEE_FORCE = 5.0`. -/
def FLEE_FORCE {a : Type} [LinearOrderedField a] : a := 5

/-- `RETURN_FORCE = 4.0`. -/
def RETURN_FORCE {a : Type} [LinearOrderedField a] : a := 4

/-- `EAT_DISTANCE = 1.5`. -/
def EAT_DISTANCE {a : Type} [LinearOrderedField a] : a := 3/2

/-- The predation size factor 1.2 (named `PREDATION_SIZE_` followed by
`RATIO` in the source: a predator must be 20% larger than its prey). -/
def predationSizeFactor {a : Type} [LinearOrderedField a] : a := 6/5

/-- `C_SPEED = 0.02`. -/
def C_SPEED : ℚ := 1/50

/-- `C_SIZE = 0.005`. -/
def C_SIZE : ℚ := 1/200

/-- `C_SENSE = 0.015`. -/
def C_SENSE : ℚ := 3/200

/-- `SUNSET_FAILSAFE_MS = 10000`. -/
def SUNSET_FAILSAFE_MS : ℚ := 10000

/-- `FAST_FORWARD_MULTIPLIER = 5`. -/
def FAST_FORWARD_MULTIPLIER : ℚ := 5

/-- `ENERGY_FOOD_GAIN = 40` (Blob.tsx). -/
def ENERGY_FOOD_GAIN : ℚ := 40

/-- `ENERGY_PREY_MULTIPLIER = 80` (Blob.tsx). -/
def ENERGY_PREY_MULTIPLIER : ℚ := 80

/-- `DAY_DURATION = 30` seconds (useSimulationTimer). -/
def DAY_DURATION : ℚ := 30

/-- `NIGHT_DURATION = 2` seconds (useSimulationTimer). -/
def NIGHT_DURATION : ℚ := 2

/-! ## Entity store (src/store/useGameStore.ts) -/

/-- `SimulationPhase`. -/
inductive SimulationPhase : Type
  | DAY
  | SUNSET
  | NIGHT
  deriving DecidableEq

/-- `BlobEntity` (generic in the number type so the behaviour engine can be
stated over the reals). -/
structure BlobEntity (a : Type) where
  id : String
  position : a × a × a
  energy : a
  genome : Genome a
  foodEaten : a
  beingEatenBy : Option String
  beingEatenPosition : Option (a × a × a)
  generation : Nat
  parentId : Option String
  deriving DecidableEq

/-- `FoodEntity`. -/
structure FoodEntity (a : Type) where
  id : String
  position : a × a × a
  deriving DecidableEq

/-- `DaySnapshot`. -/
structure DaySnapshot where
  day : Nat
  population : Nat
  births : Nat
  deaths : Nat
  avgSpeed : ℚ
  avgSize : ℚ
  avgSense : ℚ
  maxSpeed : ℚ
  maxSize : ℚ
  maxSense : ℚ
  maxGeneration : Nat
  deriving DecidableEq

/-- The zustand store state (`GameState`). -/
structure GameState where
  blobs : List (BlobEntity ℚ)
  foods : List (FoodEntity ℚ)
  blobsById : List (String × BlobEntity ℚ)
  foodsById : List (String × FoodEntity ℚ)
  blobGrid : SpatialGrid
  foodGrid : SpatialGrid
  day : Nat
  phase : SimulationPhase
  timeRemaining : ℚ
  dayDuration : ℚ
  deadThisDay : Nat
  blobsAtEdge : Nat
  sunsetStartTime : ℚ
  isPaused : Bool
  simulationSpeed : ℚ
  history : List DaySnapshot
  maxGeneration : Nat
  deriving DecidableEq

/-- `generateEdgePosition()`: the random angle draw is passed as its
cosine/sine pair `u`, giving `[cos θ * SPAWN_RADIUS, 1, sin θ * SPAWN_RADIUS]`. -/
def generateEdgePosition (u : ℚ × ℚ) : Triplet :=
  (u.1 * SPAWN_RADIUS, 1, u.2 * SPAWN_RADIUS)

/-- `generateFoodPosition(radius)`: the random angle draw is passed as its
cosine/sine pair `u`, the distance draw as `t ∈ [0,1]` (`distance = t * radius`). -/
def generateFoodPosition (u : ℚ × ℚ) (t radius : ℚ) : Triplet :=
  (u.1 * (t * radius), 2/5, u.2 * (t * radius))

/-- `buildBlobMap`. -/
def buildBlobMap (blobs : List (BlobEntity ℚ)) : List (String × BlobEntity ℚ) :=
  blobs.map (fun b => (b.id, b))

/-- `buildFoodMap`. -/
def buildFoodMap (foods : List (FoodEntity ℚ)) : List (String × FoodEntity ℚ) :=
  foods.map (fun f => (f.id, f))

/-- Environment of external draws for `setupSimulation` (uuids, spawn
angles, genome draws), indexed by entity number. -/
structure SetupEnv where
  blobId : Nat → String
  blobDir : Nat → ℚ × ℚ
  genomeU : Nat → ℚ × ℚ × ℚ
  foodId : Nat → String
  foodDir : Nat → ℚ × ℚ
  foodT : Nat → ℚ

/-- `setupSimulation(blobCount, foodCount)`. -/
def setupSimulation (env : SetupEnv) (blobCount foodCount : Nat) : GameState :=
  let blobs : List (BlobEntity ℚ) := (List.range blobCount).map (fun i =>
    { id := env.blobId i
      position := generateEdgePosition (env.blobDir i)
      energy := 100
      genome := createRandomGenome (env.genomeU i).1 (env.genomeU i).2.1 (env.genomeU i).2.2
      foodEaten := 0
      beingEatenBy := none
      beingEatenPosition := none
      generation := 1
      parentId := none })
  let foods : List (FoodEntity ℚ) := (List.range foodCount).map (fun i =>
    { id := env.foodId i
      position := generateFoodPosition (env.foodDir i) (env.foodT i) 14 })
  { blobs := blobs
    foods := foods
    blobsById := buildBlobMap blobs
    foodsById := buildFoodMap foods
    blobGrid := rebuildGrid (createSpatialGrid 5) (blobs.map (fun b => (b.id, b.position)))
    foodGrid := rebuildGrid (createSpatialGrid 5) (foods.map (fun f => (f.id, f.position)))
    day := 1
    phase := SimulationPhase.DAY
    timeRemaining := 30
    dayDuration := 30
    deadThisDay := 0
    blobsAtEdge := 0
    sunsetStartTime := 0
    isPaused := false
    simulationSpeed := 1
    history := []
    maxGeneration := 1 }

/-- `removeFood(id)`. -/
def removeFood (s : GameState) (id : String) : GameState :=
  { s with
    foods := s.foods.filter (fun food => food.id ≠ id)
    foodsById := mdel s.foodsById id
    foodGrid := gridRemove s.foodGrid id }

/-- `updateBlobEnergy(id, amount)`: adds `amount` to the blob energy
(no clamping in the source); no-op when the id is absent. -/
def updateBlobEnergy (s : GameState) (id : String) (amount : ℚ) : GameState :=
  match mget s.blobsById id with
  | none => s
  | some existingBlob =>
      let updatedBlob := { existingBlob with energy := existingBlob.energy + amount }
      { s with
        blobs := s.blobs.map (fun blob => if blob.id = id then updatedBlob else blob)
        blobsById := mset s.blobsById id updatedBlob }

/-- `syncBlobPosition(id, position)`; also updates the blob spatial grid. -/
def syncBlobPosition (s : GameState) (id : String) (position : Triplet) : GameState :=
  match mget s.blobsById id with
  | none => s
  | some existingBlob =>
      let updatedBlob := { existingBlob with position := position }
      { s with
        blobs := s.blobs.map (fun blob => if blob.id = id then updatedBlob else blob)
        blobsById := mset s.blobsById id updatedBlob
        blobGrid := gridUpdate s.blobGrid id position }

/-- `incrementFoodEaten(id)`. -/
def incrementFoodEaten (s : GameState) (id : String) : GameState :=
  match mget s.blobsById id with
  | none => s
  | some existingBlob =>
      let updatedBlob := { existingBlob with foodEaten := existingBlob.foodEaten + 1 }
      { s with
        blobs := s.blobs.map (fun blob => if blob.id = id then updatedBlob else blob)
        blobsById := mset s.blobsById id updatedBlob }

/-- `resetFoodEaten(id)`. -/
def resetFoodEaten (s : GameState) (id : String) : GameState :=
  match mget s.blobsById id with
  | none => s
  | some existingBlob =>
      let updatedBlob := { existingBlob with foodEaten := 0 }
      { s with
        blobs := s.blobs.map (fun blob => if blob.id = id then updatedBlob else blob)
        blobsById := mset s.blobsById id updatedBlob }

/-- Environment of external draws for one `reproduceBlob` call: the baby
uuid, the cosine/sine pair of the random spawn angle, and the three
mutation draws. -/
structure ReproEnv where
  babyId : String
  angleDir : ℚ × ℚ
  mutU : ℚ × ℚ × ℚ

/-- `reproduceBlob(parentId, currentPosition)`. -/
def reproduceBlob (env : ReproEnv) (s : GameState) (parentId : String)
    (currentPosition : Triplet) : GameState :=
  match mget s.blobsById parentId with
  | none => s
  | some parent =>
      let babyGenome := mutate parent.genome env.mutU.1 env.mutU.2.1 env.mutU.2.2
      let offset := (parent.genome.size + babyGenome.size) * (5/2)
      let babyPosition : Triplet :=
        (currentPosition.1 + env.angleDir.1 * offset,
         currentPosition.2.1,
         currentPosition.2.2 + env.angleDir.2 * offset)
      let babyGeneration := parent.generation + 1
      let baby : BlobEntity ℚ :=
        { id := env.babyId
          position := babyPosition
          energy := 100
          genome := babyGenome
          foodEaten := 0
          beingEatenBy := none
          beingEatenPosition := none
          generation := babyGeneration
          parentId := some parent.id }
      { s with
        blobs := s.blobs ++ [baby]
        blobsById := mset s.blobsById baby.id baby
        blobGrid := gridInsert s.blobGrid baby.id baby.position
        maxGeneration := max s.maxGeneration babyGeneration }

/-- `setTimeRemaining(time)`. -/
def setTimeRemaining (s : GameState) (time : ℚ) : GameState :=
  { s with timeRemaining := time }

/-- `startSunset()`: `Date.now()` is passed as `now`. -/
def startSunset (s : GameState) (now : ℚ) : GameState :=
  { s with phase := SimulationPhase.SUNSET, sunsetStartTime := now }

/-- `startNight()`. -/
def startNight (s : GameState) : GameState :=
  { s with phase := SimulationPhase.NIGHT }

/-- `markBlobAtEdge(_id)`: increments the counter and ignores the id. -/
def markBlobAtEdge (s : GameState) (_id : String) : GameState :=
  { s with blobsAtEdge := s.blobsAtEdge + 1 }

/-- `removeBlob(id)`. -/
def removeBlob (s : GameState) (id : String) : GameState :=
  { s with
    blobs := s.blobs.filter (fun blob => blob.id ≠ id)
    blobsById := mdel s.blobsById id
    blobGrid := gridRemove s.blobGrid id
    deadThisDay := s.deadThisDay + 1 }

/-- `markBlobAsEaten(preyId, predatorId, predatorPosition)`. -/
def markBlobAsEaten (s : GameState) (preyId predatorId : String)
    (predatorPosition : Triplet) : GameState :=
  match mget s.blobsById preyId with
  | none => s
  | some existingBlob =>
      let updatedBlob := { existingBlob with
        beingEatenBy := some predatorId
        beingEatenPosition := some predatorPosition }
      { s with
        blobs := s.blobs.map (fun blob => if blob.id = preyId then updatedBlob else blob)
        blobsById := mset s.blobsById preyId updatedBlob }

/-! ## Judgment (runJudgment in useGameStore.ts) -/

/-- `Math.max(...xs)` over a nonempty spread, 0 for the empty guard case. -/
def listMaxQ : List ℚ → ℚ
  | [] => 0
  | h :: t => t.foldl max h

/-- `Math.max(...xs)` for natural-valued lists. -/
def listMaxN : List Nat → Nat
  | [] => 0
  | h :: t => t.foldl max h

/-- Environment of external draws for one `runJudgment` call: per surviving
parent an edge respawn angle, per reproducing parent a baby uuid, angle and
mutation draws (keyed by the parent id), and per new food an id and
position draw (keyed by index). -/
structure JudgeEnv where
  survivorDir : String → ℚ × ℚ
  babyId : String → String
  babyDir : String → ℚ × ℚ
  mutU : String → ℚ × ℚ × ℚ
  foodId : Nat → String
  foodDir : Nat → ℚ × ℚ
  foodT : Nat → ℚ

/-- The survivor reset performed by judgment: `foodEaten = 0`,
`energy = 100`, fresh edge position, predation marks cleared. -/
def surviveReset (env : JudgeEnv) (b : BlobEntity ℚ) : BlobEntity ℚ :=
  { b with
    foodEaten := 0
    energy := 100
    position := generateEdgePosition (env.survivorDir b.id)
    beingEatenBy := none
    beingEatenPosition := none }

/-- The offspring created by judgment for a parent with `foodEaten ≥ 2`. -/
def makeBaby (env : JudgeEnv) (b : BlobEntity ℚ) : BlobEntity ℚ :=
  { id := env.babyId b.id
    position := generateEdgePosition (env.babyDir b.id)
    energy := 100
    genome := mutate b.genome (env.mutU b.id).1 (env.mutU b.id).2.1 (env.mutU b.id).2.2
    foodEaten := 0
    beingEatenBy := none
    beingEatenPosition := none
    generation := b.generation + 1
    parentId := some b.id }

/-- The judgment loop over `state.blobs` (the `for` loop of `runJudgment`),
returning the `survivors` and `babies` arrays in encounter order. -/
def judgeLoop (env : JudgeEnv) : List (BlobEntity ℚ) → List (BlobEntity ℚ) × List (BlobEntity ℚ)
  | [] => ([], [])
  | b :: rest =>
      let p := judgeLoop env rest
      if b.beingEatenBy ≠ none then p
      else if b.foodEaten < 1 then p
      else if 2 ≤ b.foodEaten then (surviveReset env b :: p.1, makeBaby env b :: p.2)
      else (surviveReset env b :: p.1, p.2)

/-- `runJudgment(foodCount)`. -/
def runJudgment (env : JudgeEnv) (s : GameState) (foodCount : Nat) : GameState :=
  let liveBlobs := s.blobs.filter (fun b => b.beingEatenBy = none)
  let population := liveBlobs.length
  let speeds := liveBlobs.map (fun b => b.genome.speed)
  let sizes := liveBlobs.map (fun b => b.genome.size)
  let senses := liveBlobs.map (fun b => b.genome.sense)
  let generations := liveBlobs.map (fun b => b.generation)
  let avgSpeed := if 0 < population then speeds.sum / population else 0
  let avgSize := if 0 < population then sizes.sum / population else 0
  let avgSense := if 0 < population then senses.sum / population else 0
  let maxSpeed := if 0 < population then listMaxQ speeds else 0
  let maxSize := if 0 < population then listMaxQ sizes else 0
  let maxSense := if 0 < population then listMaxQ senses else 0
  let maxGen := if 0 < population then listMaxN generations else 0
  let sb := judgeLoop env s.blobs
  let survivors := sb.1
  let babies := sb.2
  let deaths := s.blobs.length - survivors.length
  let births := babies.length
  let newFoods : List (FoodEntity ℚ) := (List.range foodCount).map (fun i =>
    { id := env.foodId i
      position := generateFoodPosition (env.foodDir i) (env.foodT i) 14 })
  let snapshot : DaySnapshot :=
    { day := s.day
      population := population
      births := births
      deaths := deaths
      avgSpeed := avgSpeed
      avgSize := avgSize
      avgSense := avgSense
      maxSpeed := maxSpeed
      maxSize := maxSize
      maxSense := maxSense
      maxGeneration := maxGen }
  let newBlobs := survivors ++ babies
  let newMaxGen := newBlobs.foldl (fun m b => max m b.generation) s.maxGeneration
  { s with
    blobs := newBlobs
    foods := newFoods
    blobsById := buildBlobMap newBlobs
    foodsById := buildFoodMap newFoods
    blobGrid := rebuildGrid (createSpatialGrid 5) (newBlobs.map (fun b => (b.id, b.position)))
    foodGrid := rebuildGrid (createSpatialGrid 5) (newFoods.map (fun f => (f.id, f.position)))
    day := s.day + 1
    phase := SimulationPhase.DAY
    timeRemaining := 30
    deadThisDay := 0
    history := s.history ++ [snapshot]
    maxGeneration := newMaxGen }

/-! ## Day/night timer (src/unnamed/part_001, the current useSimulationTimer)

This is the version of `useSimulationTimer` consistent with the store
(`blobsAtEdge`, `sunsetStartTime`) and with `constants/physics.ts`
(`SUNSET_FAILSAFE_MS`, `FAST_FORWARD_MULTIPLIER`); the file
`src/hooks/useSimulationTimer.ts` is an earlier sprint version that uses a
fixed 3-second sunset and none of those fields. `Date.now()` is passed as
`now` (milliseconds), the frame delta as `delta` (seconds). -/

/-- The `useRef` state of `useSimulationTimer`. -/
structure TimerRefs where
  timeRef : ℚ
  lastSyncedTime : ℚ
  nightTimer : ℚ
  deriving DecidableEq

/-- One `useFrame` body of the current `useSimulationTimer`. -/
def timerStep (env : JudgeEnv) (foodCount : Nat) (now delta : ℚ)
    (s : GameState) (r : TimerRefs) : GameState × TimerRefs :=
  if s.isPaused then (s, r)
  else
    let adjustedDelta := delta * s.simulationSpeed
    match s.phase with
    | SimulationPhase.DAY =>
        let adjustedDelta :=
          if s.foods.length = 0 then adjustedDelta * FAST_FORWARD_MULTIPLIER else adjustedDelta
        let t := r.timeRef - adjustedDelta
        let currentSecond := Int.ceil t
        let lastSecond := Int.ceil r.lastSyncedTime
        let s₁ := if currentSecond ≠ lastSecond then setTimeRemaining s (max 0 t) else s
        let r₁ : TimerRefs :=
          if currentSecond ≠ lastSecond
          then { r with timeRef := t, lastSyncedTime := t }
          else { r with timeRef := t }
        if t ≤ 0 then
          (startSunset (setTimeRemaining s₁ 0) now, { r₁ with timeRef := 0 })
        else (s₁, r₁)
    | SimulationPhase.SUNSET =>
        let aliveBlobCount := (s.blobs.filter (fun b => b.beingEatenBy = none)).length
        let allBlobsHome := aliveBlobCount ≤ s.blobsAtEdge
        let failsafeTriggered := SUNSET_FAILSAFE_MS < now - s.sunsetStartTime
        if allBlobsHome ∨ failsafeTriggered ∨ aliveBlobCount = 0 then
          (startNight (setTimeRemaining s 0), { r with nightTimer := 0 })
        else (s, r)
    | SimulationPhase.NIGHT =>
        let nt := r.nightTimer + adjustedDelta
        if NIGHT_DURATION ≤ nt then
          (runJudgment env s foodCount,
           { r with timeRef := DAY_DURATION, lastSyncedTime := DAY_DURATION, nightTimer := 0 })
        else (s, { r with nightTimer := nt })

/-! ## Eating logic (Blob.tsx, the EATING block of the per-frame body)

Each Blob component keeps a `consumedTargetsRef` set; the eating block runs
when the brain reports `EATING` with a target. The per-agent consumed sets
are modelled as an association list keyed by agent id; `Math`-free, so the
step is fully computable. Energy lives in a component-local ref and does not
affect the store, so it is omitted here (see `energyGainStep` for its
clamping). -/

/-- Target kind reported by the brain (`"food" | "blob"`). -/
inductive TargetType : Type
  | food
  | blob
  deriving DecidableEq

/-- One attempted consumption: the acting agent, the reported target and the
agent's current physics position. -/
structure EatEvent where
  agentId : String
  targetType : TargetType
  targetId : String
  pos : Triplet
  deriving DecidableEq

/-- The per-agent `consumedTargetsRef` sets. -/
def Consumed : Type := List (String × List String)

instance : DecidableEq Consumed := by unfold Consumed; infer_instance

/-- One execution of the eating block for one agent and one reported
target; returns the new store/consumed state and the credit event
(`some (agent, target)` exactly when `incrementFoodEaten` ran). -/
def eatStep (sc : GameState × Consumed) (e : EatEvent) :
    (GameState × Consumed) × Option (String × String) :=
  let s := sc.1
  let consumed := sc.2
  let mine := (mget consumed e.agentId).getD []
  let alreadyConsumed := e.targetId ∈ mine
  match e.targetType with
  | TargetType.food =>
      if alreadyConsumed then (sc, none)
      else
        match mget s.foodsById e.targetId with
        | none => (sc, none)
        | some _ =>
            let consumed' := mset consumed e.agentId (setAdd mine e.targetId)
            let s₁ := removeFood s e.targetId
            let s₂ := incrementFoodEaten s₁ e.agentId
            let s₃ := syncBlobPosition s₂ e.agentId e.pos
            ((s₃, consumed'), some (e.agentId, e.targetId))
  | TargetType.blob =>
      if alreadyConsumed then (sc, none)
      else if s.phase ≠ SimulationPhase.DAY then (sc, none)
      else
        match mget s.blobsById e.targetId with
        | none => (sc, none)
        | some prey =>
            if prey.beingEatenBy.isSome then (sc, none)
            else
              let consumed' := mset consumed e.agentId (setAdd mine e.targetId)
              let s₁ := markBlobAsEaten s prey.id e.agentId e.pos
              let s₂ := incrementFoodEaten s₁ e.agentId
              let s₃ := syncBlobPosition s₂ e.agentId e.pos
              ((s₃, consumed'), some (e.agentId, e.targetId))

/-- Run a sequence of eating attempts, collecting all credit events. -/
def runEat (sc : GameState × Consumed) : List EatEvent → (GameState × Consumed) × List (String × String)
  | [] => (sc, [])
  | e :: rest =>
      let st := eatStep sc e
      let r := runEat st.1 rest
      (r.1, st.2.toList ++ r.2)

/-- A food id that can still be credited: present in `foodsById`. -/
def foodLive (s : GameState) (f : String) : Bool :=
  (mget s.foodsById f).isSome

/-- A prey id that can still be credited: present in `blobsById` and not
yet marked `beingEatenBy`. -/
def preyLive (s : GameState) (f : String) : Bool :=
  match mget s.blobsById f with
  | none => false
  | some b => b.beingEatenBy.isNone

/-- Number of remaining ways the id `f` can be credited. -/
def liveCount (s : GameState) (f : String) : Nat :=
  (if foodLive s f then 1 else 0) + (if preyLive s f then 1 else 0)

/-- Number of credit events for target `f`. -/
def creditCount (f : String) (credits : List (String × String)) : Nat :=
  (credits.filter (fun c => c.2 = f)).length

/-- Energy decay applied per frame during DAY
(Blob.tsx: `energyRef.current = Math.max(0, energyRef.current - energyCost)`). -/
def energyDecayStep (e cost : ℚ) : ℚ :=
  max 0 (e - cost)

/-- The per-frame energy cost
`(C_SPEED * speed² + C_SIZE * size³ + C_SENSE * sense) * adjustedDelta * 60`. -/
def energyCost (g : Genome ℚ) (adjustedDelta : ℚ) : ℚ :=
  (C_SPEED * g.speed ^ 2 + C_SIZE * g.size ^ 3 + C_SENSE * g.sense) * adjustedDelta * 60

/-- Energy gain from eating
(Blob.tsx: `energyRef.current = Math.min(100, energyRef.current + gain)`). -/
def energyGainStep (e gain : ℚ) : ℚ :=
  min 100 (e + gain)

/-! ## Behaviour engine (src/hooks/useBlobBrain.ts, src/utils/steering.ts)

The geometry calls `Math.hypot`, `Math.sin`, `Math.cos`; those functions are
passed as a record so the definitions stay generic and computable, and the
theorems instantiate them with the exact real functions. `targetDistance`
fields model `Number.POSITIVE_INFINITY` as `⊤` in `WithTop`. -/

/-- The math functions used by the behaviour engine. -/
structure MathFns (a : Type) where
  sqrt : a → a
  sin : a → a
  cos : a → a

/-- `distance2D(a, b) = Math.hypot(a.x - b.x, a.z - b.z)`. -/
def distance2D {a : Type} [LinearOrderedField a] (m : MathFns a) (p q : a × a) : a :=
  m.sqrt ((p.1 - q.1) ^ 2 + (p.2 - q.2) ^ 2)

/-- `calculateBoundaryForce(blobPos)` (steering.ts). -/
def calculateBoundaryForce {a : Type} [LinearOrderedField a] (m : MathFns a)
    (blobPos : a × a) : a × a :=
  let distanceFromCenter := m.sqrt (blobPos.1 ^ 2 + blobPos.2 ^ 2)
  if distanceFromCenter ≤ SOFT_BOUNDARY then (0, 0)
  else
    let boundaryPressure := (distanceFromCenter - SOFT_BOUNDARY) / (ARENA_RADIUS - SOFT_BOUNDARY)
    let returnStrength := SOFT_RETURN_FORCE * boundaryPressure * 2
    (-blobPos.1 / distanceFromCenter * returnStrength,
     -blobPos.2 / distanceFromCenter * returnStrength)

/-- Result record of `calculateSteeringForce` (steering.ts). -/
structure SteeringResult (a : Type) where
  direction : a × a
  force : a
  targetId : Option String
  targetDistance : WithTop a
  isHunting : Bool

/-- `calculateSteeringForce(blobPos, senseRadius, foods, wanderSeed)`
(steering.ts): nearest-food scan, hunting result or seeded wander. -/
def calculateSteeringForce {a : Type} [LinearOrderedField a] (m : MathFns a)
    (blobPos : a × a) (senseRadius : a) (foods : List (FoodEntity a))
    (wanderSeed : a) : SteeringResult a :=
  let scan := foods.foldl (fun acc food =>
    let dist := distance2D m blobPos (food.position.1, food.position.2.2)
    if dist ≤ senseRadius ∧ (dist : WithTop a) < acc.2.1 then
      let dx := food.position.1 - blobPos.1
      let dz := food.position.2.2 - blobPos.2
      let len := m.sqrt (dx ^ 2 + dz ^ 2)
      (some food.id, (dist : WithTop a),
       if 1/100 < len then some (dx / len, dz / len) else acc.2.2)
    else acc)
    ((none : Option String), (⊤ : WithTop a), (none : Option (a × a)))
  match scan.1, scan.2.2 with
  | some targetFoodId, some steerDirection =>
      { direction := steerDirection
        force := HUNT_FORCE
        targetId := some targetFoodId
        targetDistance := scan.2.1
        isHunting := true }
  | _, _ =>
      { direction := (m.sin wanderSeed, m.cos wanderSeed)
        force := WANDER_FORCE
        targetId := none
        targetDistance := ⊤
        isHunting := false }

/-- `BlobState`. -/
inductive BlobState : Type
  | WANDERING
  | HUNTING
  | RETURNING
  | EATING
  | FLEEING
  deriving DecidableEq

/-- `BrainOutput`. -/
structure BrainOutput (a : Type) where
  state : BlobState
  steeringVector : a × a
  boundaryVector : a × a
  totalForce : a × a
  targetId : Option String
  targetDistance : WithTop a
  targetType : Option TargetType

/-- One iteration of the threat-detection loop of `tick` (useBlobBrain.ts):
the mutable `(threatId, threatDistance, fleeDirection)` is the fold state,
with `(none, ⊤, none)` for `(null, Infinity, null)`. -/
def threatStep {a : Type} [LinearOrderedField a] (m : MathFns a) (blobPos : a × a)
    (senseRadius : a) (myId : String) (mySize : a)
    (acc : Option String × WithTop a × Option (a × a)) (blob : BlobEntity a) :
    Option String × WithTop a × Option (a × a) :=
  if blob.id = myId then acc
  else if blob.beingEatenBy.isSome then acc
  else if senseRadius < |blob.position.1 - blobPos.1| then acc
  else if senseRadius < |blob.position.2.2 - blobPos.2| then acc
  else
    let dist := distance2D m blobPos (blob.position.1, blob.position.2.2)
    if mySize * predationSizeFactor < blob.genome.size ∧ dist < senseRadius ∧
        (dist : WithTop a) < acc.2.1 then
      let len := if 1/100 < dist then dist else 1/100
      (some blob.id, (dist : WithTop a),
       some (-(blob.position.1 - blobPos.1) / len, -(blob.position.2.2 - blobPos.2) / len))
    else acc

/-- The threat-detection loop of `tick`. -/
def threatScan {a : Type} [LinearOrderedField a] (m : MathFns a) (blobPos : a × a)
    (senseRadius : a) (myId : String) (mySize : a) (blobs : List (BlobEntity a)) :
    Option String × WithTop a × Option (a × a) :=
  blobs.foldl (threatStep m blobPos senseRadius myId mySize)
    ((none : Option String), (⊤ : WithTop a), (none : Option (a × a)))

/-- The prey-detection loop of `tick` (useBlobBrain.ts). -/
def preyScan {a : Type} [LinearOrderedField a] (m : MathFns a) (blobPos : a × a)
    (senseRadius : a) (myId : String) (mySize : a) (blobs : List (BlobEntity a)) :
    Option String × WithTop a × Option (a × a) :=
  blobs.foldl (fun acc blob =>
    if blob.id = myId then acc
    else if blob.beingEatenBy.isSome then acc
    else if senseRadius < |blob.position.1 - blobPos.1| then acc
    else if senseRadius < |blob.position.2.2 - blobPos.2| then acc
    else
      let dist := distance2D m blobPos (blob.position.1, blob.position.2.2)
      if blob.genome.size * predationSizeFactor < mySize ∧ dist < senseRadius ∧
          (dist : WithTop a) < acc.2.1 then
        let len := if 1/100 < dist then dist else 1/100
        (some blob.id, (dist : WithTop a),
         some ((blob.position.1 - blobPos.1) / len, (blob.position.2.2 - blobPos.2) / len))
      else acc)
    ((none : Option String), (⊤ : WithTop a), (none : Option (a × a)))

/-- The tail of `tick`: hunt food when available, else boundary-pressure
return, else wander. -/
def tickHuntFoodOrDefault {a : Type} [LinearOrderedField a]
    (foodSteering : SteeringResult a) (boundaryVector : a × a)
    (distanceFromCenter : a) : BrainOutput a :=
  if foodSteering.isHunting then
    let steeringVector := (foodSteering.direction.1 * foodSteering.force,
                           foodSteering.direction.2 * foodSteering.force)
    { state := BlobState.HUNTING
      steeringVector := steeringVector
      boundaryVector := boundaryVector
      totalForce := (steeringVector.1 + boundaryVector.1, steeringVector.2 + boundaryVector.2)
      targetId := foodSteering.targetId
      targetDistance := foodSteering.targetDistance
      targetType := some TargetType.food }
  else if SOFT_BOUNDARY < distanceFromCenter then
    let steeringVector := (foodSteering.direction.1 * foodSteering.force,
                           foodSteering.direction.2 * foodSteering.force)
    { state := BlobState.RETURNING
      steeringVector := steeringVector
      boundaryVector := boundaryVector
      totalForce := (steeringVector.1 + boundaryVector.1, steeringVector.2 + boundaryVector.2)
      targetId := none
      targetDistance := ⊤
      targetType := none }
  else
    let steeringVector := (foodSteering.direction.1 * foodSteering.force,
                           foodSteering.direction.2 * foodSteering.force)
    { state := BlobState.WANDERING
      steeringVector := steeringVector
      boundaryVector := boundaryVector
      totalForce := (steeringVector.1 + boundaryVector.1, steeringVector.2 + boundaryVector.2)
      targetId := none
      targetDistance := ⊤
      targetType := none }

/-- The part of `tick` after the prey-eating early return (food-eating
check, hunting, boundary return, wandering). -/
def tickAfterPreyEat {a : Type} [LinearOrderedField a] (m : MathFns a) (blobPos : a × a)
    (prey : Option String × WithTop a × Option (a × a)) (foodSteering : SteeringResult a)
    (distanceFromCenter : a) (speedMultiplier : a) : BrainOutput a :=
  if foodSteering.targetId.isSome ∧ foodSteering.targetDistance < ((EAT_DISTANCE : a) : WithTop a) ∧
      foodSteering.isHunting then
    { state := BlobState.EATING
      steeringVector := (0, 0)
      boundaryVector := (0, 0)
      totalForce := (0, 0)
      targetId := foodSteering.targetId
      targetDistance := foodSteering.targetDistance
      targetType := some TargetType.food }
  else
    let boundaryVector := calculateBoundaryForce m blobPos
    match prey.1, prey.2.2 with
    | some preyId, some preyDirection =>
        if prey.2.1 < foodSteering.targetDistance then
          let steeringVector := (preyDirection.1 * HUNT_FORCE * speedMultiplier,
                                 preyDirection.2 * HUNT_FORCE * speedMultiplier)
          { state := BlobState.HUNTING
            steeringVector := steeringVector
            boundaryVector := boundaryVector
            totalForce := (steeringVector.1 + boundaryVector.1, steeringVector.2 + boundaryVector.2)
            targetId := some preyId
            targetDistance := prey.2.1
            targetType := some TargetType.blob }
        else tickHuntFoodOrDefault foodSteering boundaryVector distanceFromCenter
    | _, _ => tickHuntFoodOrDefault foodSteering boundaryVector distanceFromCenter

/-- `tick(blobPos, senseRadius, foods, blobs, myId, mySize, wanderSeed,
speedMultiplier, timeRemaining)` of `useBlobBrain` — the per-frame FSM
decision. (The brain passes `speedMultiplier` to `calculateSteeringForce`
as a fifth argument which the four-parameter implementation ignores.) -/
def tick {a : Type} [LinearOrderedField a] (m : MathFns a) (blobPos : a × a)
    (senseRadius : a) (foods : List (FoodEntity a)) (blobs : List (BlobEntity a))
    (myId : String) (mySize : a) (wanderSeed : a) (speedMultiplier : a)
    (timeRemaining : a) : BrainOutput a :=
  let distanceFromCenter := m.sqrt (blobPos.1 ^ 2 + blobPos.2 ^ 2)
  let threat := threatScan m blobPos senseRadius myId mySize blobs
  match threat.1, threat.2.2 with
  | some threatId, some fleeDirection =>
      let steeringVector := (fleeDirection.1 * FLEE_FORCE * speedMultiplier,
                             fleeDirection.2 * FLEE_FORCE * speedMultiplier)
      let boundaryVector := calculateBoundaryForce m blobPos
      { state := BlobState.FLEEING
        steeringVector := steeringVector
        boundaryVector := boundaryVector
        totalForce := (steeringVector.1 + boundaryVector.1, steeringVector.2 + boundaryVector.2)
        targetId := some threatId
        targetDistance := threat.2.1
        targetType := some TargetType.blob }
  | _, _ =>
      let prey := preyScan m blobPos senseRadius myId mySize blobs
      let foodSteering := calculateSteeringForce m blobPos senseRadius foods wanderSeed
      let shouldReturn := timeRemaining ≤ 3
      if shouldReturn then
        let returnDirection :=
          if distanceFromCenter < 1/10 then (m.cos wanderSeed, m.sin wanderSeed)
          else (blobPos.1 / distanceFromCenter, blobPos.2 / distanceFromCenter)
        let atEdge := SPAWN_RADIUS - 1 ≤ distanceFromCenter
        let returnForce := if atEdge then 1/2 else RETURN_FORCE * speedMultiplier
        let steeringVector := (returnDirection.1 * returnForce, returnDirection.2 * returnForce)
        { state := BlobState.RETURNING
          steeringVector := steeringVector
          boundaryVector := (0, 0)
          totalForce := steeringVector
          targetId := none
          targetDistance := ⊤
          targetType := none }
      else
        match prey.1 with
        | some preyId =>
            if prey.2.1 < ((EAT_DISTANCE : a) : WithTop a) then
              { state := BlobState.EATING
                steeringVector := (0, 0)
                boundaryVector := (0, 0)
                totalForce := (0, 0)
                targetId := some preyId
                targetDistance := prey.2.1
                targetType := some TargetType.blob }
            else tickAfterPreyEat m blobPos prey foodSteering distanceFromCenter speedMultiplier
        | none => tickAfterPreyEat m blobPos prey foodSteering distanceFromCenter speedMultiplier

/-! ## Concrete fixtures used by witnesses and counterexamples -/

/-- A concrete genome inside all declared ranges. -/
def genomeA : Genome ℚ := { speed := 1, size := 1, sense := 5 }

/-- A simple blob numbered `n` with the given `foodEaten`. -/
def mkBlob (n : Nat) (fe : ℚ) : BlobEntity ℚ :=
  { id := toString n
    position := (0, 1, 0)
    energy := 100
    genome := genomeA
    foodEaten := fe
    beingEatenBy := none
    beingEatenPosition := none
    generation := 3
    parentId := none }

/-- A one-blob DAY store. -/
def stateA : GameState :=
  { blobs := [mkBlob 0 0]
    foods := []
    blobsById := buildBlobMap [mkBlob 0 0]
    foodsById := []
    blobGrid := createSpatialGrid 5
    foodGrid := createSpatialGrid 5
    day := 1
    phase := SimulationPhase.DAY
    timeRemaining := 30
    dayDuration := 30
    deadThisDay := 0
    blobsAtEdge := 0
    sunsetStartTime := 0
    isPaused := false
    simulationSpeed := 1
    history := []
    maxGeneration := 1 }

/-- A concrete reproduction environment. -/
def reproEnvA : ReproEnv :=
  { babyId := toString 90, angleDir := (1, 0), mutU := (1/2, 1/2, 1/2) }

/-- A concrete judgment environment. -/
def judgeEnvA : JudgeEnv :=
  { survivorDir := fun _ => (1, 0)
    babyId := fun pid => pid ++ toString 9
    babyDir := fun _ => (0, 1)
    mutU := fun _ => (1/2, 1/2, 1/2)
    foodId := fun i => toString (1000 + i)
    foodDir := fun _ => (1, 0)
    foodT := fun _ => 1/2 }

/-! ## Claim C3 — genome mutation stays in range -/

/-- `clampQ` lands inside `[lo, hi]` whenever `lo ≤ hi`. -/
theorem clampQ_mem (v lo hi : ℚ) (h : lo ≤ hi) :
    lo ≤ clampQ v lo hi ∧ clampQ v lo hi ≤ hi :=
  ⟨le_max_left _ _, max_le h (min_le_left _ _)⟩

/-- Claim C3: for every genome with traits inside the declared ranges and
every triple of uniform draws in `[0,1]`, `mutate` perturbs each trait
multiplicatively by a factor in `[1 - 0.05, 1 + 0.05]` and clamps, so every
resulting trait lies within its declared range; in particular with
`speed = 1.0` the pre-clamp speed lies in `[0.95, 1.05]`. -/
theorem claim_C3 (g : Genome ℚ) (u₁ u₂ u₃ : ℚ)
    (_hs₁ : SPEED_MIN ≤ g.speed) (_hs₂ : g.speed ≤ SPEED_MAX)
    (_hz₁ : SIZE_MIN ≤ g.size) (_hz₂ : g.size ≤ SIZE_MAX)
    (_hn₁ : SENSE_MIN ≤ g.sense) (_hn₂ : g.sense ≤ SENSE_MAX)
    (hu₁ : 0 ≤ u₁) (hu₁' : u₁ ≤ 1) (_hu₂ : 0 ≤ u₂) (_hu₂' : u₂ ≤ 1)
    (_hu₃ : 0 ≤ u₃) (_hu₃' : u₃ ≤ 1) :
    (SPEED_MIN ≤ (mutate g u₁ u₂ u₃).speed ∧ (mutate g u₁ u₂ u₃).speed ≤ SPEED_MAX) ∧
    (SIZE_MIN ≤ (mutate g u₁ u₂ u₃).size ∧ (mutate g u₁ u₂ u₃).size ≤ SIZE_MAX) ∧
    (SENSE_MIN ≤ (mutate g u₁ u₂ u₃).sense ∧ (mutate g u₁ u₂ u₃).sense ≤ SENSE_MAX) ∧
    (1 - MUTATION_RANGE ≤ 1 + randomRange u₁ MUTATION_RANGE ∧
      1 + randomRange u₁ MUTATION_RANGE ≤ 1 + MUTATION_RANGE) ∧
    (g.speed = 1 →
      19/20 ≤ g.speed * (1 + randomRange u₁ MUTATION_RANGE) ∧
      g.speed * (1 + randomRange u₁ MUTATION_RANGE) ≤ 21/20) := by
  refine ⟨?_, ?_, ?_, ?_, ?_⟩
  · exact clampQ_mem _ _ _ (by norm_num [SPEED_MIN, SPEED_MAX])
  · exact clampQ_mem _ _ _ (by norm_num [SIZE_MIN, SIZE_MAX])
  · exact clampQ_mem _ _ _ (by norm_num [SENSE_MIN, SENSE_MAX])
  · constructor
    · simp only [randomRange, MUTATION_RANGE]
      linarith
    · simp only [randomRange, MUTATION_RANGE]
      linarith
  · intro hone
    rw [hone]
    constructor
    · simp only [randomRange, MUTATION_RANGE]
      linarith
    · simp only [randomRange, MUTATION_RANGE]
      linarith

/-- Witness for C3 at the concrete genome `genomeA` and draws
`(3/4, 1/4, 1/2)`. -/
theorem claim_C3_witness :
    SPEED_MIN ≤ (mutate genomeA (3/4) (1/4) (1/2)).speed ∧
    (mutate genomeA (3/4) (1/4) (1/2)).speed ≤ SPEED_MAX :=
  (claim_C3 genomeA (3/4) (1/4) (1/2)
    (by norm_num [SPEED_MIN, genomeA]) (by norm_num [SPEED_MAX, genomeA])
    (by norm_num [SIZE_MIN, genomeA]) (by norm_num [SIZE_MAX, genomeA])
    (by norm_num [SENSE_MIN, genomeA]) (by norm_num [SENSE_MAX, genomeA])
    (by norm_num) (by norm_num) (by norm_num) (by norm_num)
    (by norm_num) (by norm_num)).1

/-! ## Claim C7 — energy bounds (corrected) -/

/-- Amended claim C7: setup and reproduction (including judgment survivors
and babies) initialize energy to 100, the per-frame decay never takes the
ref-tracked energy below 0, food/prey gains never take it above 100 — but
the store mutator `updateBlobEnergy` adds its delta without clamping, so it
alone does not keep the stored energy inside `[0, 100]`. -/
theorem claim_C7_amended (e cost gain amount : ℚ) (s : GameState) (id : String)
    (b : BlobEntity ℚ)
    (he₀ : 0 ≤ e) (he₁ : e ≤ 100) (hc : 0 ≤ cost) (hg : 0 ≤ gain)
    (hb : mget s.blobsById id = some b) :
    (0 ≤ energyDecayStep e cost ∧ energyDecayStep e cost ≤ 100) ∧
    (0 ≤ energyGainStep e gain ∧ energyGainStep e gain ≤ 100) ∧
    (∀ env n k, ∀ blob ∈ (setupSimulation env n k).blobs, blob.energy = 100) ∧
    (∀ env parent, (makeBaby env parent).energy = 100 ∧ (surviveReset env parent).energy = 100) ∧
    (∀ env pos, ∀ blob ∈ (reproduceBlob env s id pos).blobs,
      blob ∈ s.blobs ∨ blob.energy = 100) ∧
    mget (updateBlobEnergy s id amount).blobsById id = some { b with energy := b.energy + amount } := by
  refine ⟨⟨le_max_left _ _, ?_⟩, ⟨?_, min_le_left _ _⟩, ?_, ?_, ?_, ?_⟩
  · exact max_le (by norm_num) (by linarith)
  · have : 0 ≤ e + gain := by linarith
    exact le_min (by norm_num) this
  · intro env n k blob hmem
    simp only [setupSimulation, List.mem_map] at hmem
    obtain ⟨i, _, rfl⟩ := hmem
    rfl
  · intro env parent
    exact ⟨rfl, rfl⟩
  · intro env pos blob hmem
    simp only [reproduceBlob, hb, List.mem_append, List.mem_singleton] at hmem
    rcases hmem with h | h
    · exact Or.inl h
    · exact Or.inr (by rw [h])
  · simp only [updateBlobEnergy, hb]
    exact mget_mset_self _ _ _

/-- Witness for the amended C7 at concrete inputs. -/
theorem claim_C7_amended_witness :
    mget stateA.blobsById (mkBlob 0 0).id = some (mkBlob 0 0) ∧
    (0 ≤ energyDecayStep 50 7 ∧ energyDecayStep 50 7 ≤ 100) :=
  ⟨rfl,
   (claim_C7_amended 50 7 3 5 stateA (mkBlob 0 0).id (mkBlob 0 0)
      (by norm_num) (by norm_num) (by norm_num) (by norm_num) rfl).1⟩

/-- Counterexample to C7 as stated: `updateBlobEnergy` with delta `+50` on a
blob at energy 100 stores energy 150, outside `[0, 100]`. -/
theorem claim_C7_counterexample :
    (mget (updateBlobEnergy stateA (mkBlob 0 0).id 50).blobsById (mkBlob 0 0).id).map
      (fun b => b.energy) = some 150 ∧ ¬((150 : ℚ) ≤ 100) := by
  have hb : mget stateA.blobsById (mkBlob 0 0).id = some (mkBlob 0 0) := rfl
  constructor
  · simp only [updateBlobEnergy, hb, mget_mset_self, Option.map_some]
    norm_num [mkBlob]
  · norm_num

/-! ## Claim C8 — mutators are no-ops on absent ids -/

/-- An id that is nowhere in the store: not in either entity array, either
id-map, or either spatial grid index. -/
def idAbsent (s : GameState) (id : String) : Prop :=
  mget s.blobsById id = none ∧ mget s.foodsById id = none ∧
  (∀ b ∈ s.blobs, b.id ≠ id) ∧ (∀ f ∈ s.foods, f.id ≠ id) ∧
  mget s.blobGrid.entityCells id = none ∧ mget s.foodGrid.entityCells id = none

instance (s : GameState) (id : String) : Decidable (idAbsent s id) := by
  unfold idAbsent; infer_instance

/-- Claim C8: calling any of the seven single-entity mutators with an id
absent from the store leaves the store state unchanged (and raises no
error). -/
theorem claim_C8 (s : GameState) (id predatorId : String) (amount : ℚ)
    (pos ppos : Triplet) (env : ReproEnv)
    (h : idAbsent s id) :
    updateBlobEnergy s id amount = s ∧
    syncBlobPosition s id pos = s ∧
    incrementFoodEaten s id = s ∧
    resetFoodEaten s id = s ∧
    markBlobAsEaten s id predatorId ppos = s ∧
    reproduceBlob env s id pos = s ∧
    removeFood s id = s := by
  obtain ⟨hb, hf, hbl, hfl, hbg, hfg⟩ := h
  refine ⟨?_, ?_, ?_, ?_, ?_, ?_, ?_⟩
  · simp only [updateBlobEnergy, hb]
  · simp only [syncBlobPosition, hb]
  · simp only [incrementFoodEaten, hb]
  · simp only [resetFoodEaten, hb]
  · simp only [markBlobAsEaten, hb]
  · simp only [reproduceBlob, hb]
  · have h1 : s.foods.filter (fun food => food.id ≠ id) = s.foods :=
      List.filter_eq_self.mpr (fun f hmem => by
        simpa using hfl f hmem)
    have h2 : mdel s.foodsById id = s.foodsById :=
      List.filter_eq_self.mpr (fun e hmem => by
        have := (mget_eq_none_iff s.foodsById id).mp hf e hmem
        simpa using this)
    have h3 : gridRemove s.foodGrid id = s.foodGrid := by
      simp only [gridRemove, hfg]
    simp only [removeFood, mdel] at *
    rw [h1, h2, h3]

/-- Witness for C8: the id `toString 99` is absent from `stateA`, and all
seven mutators leave `stateA` unchanged on it. -/
theorem claim_C8_witness :
    idAbsent stateA (toString 99) ∧
    updateBlobEnergy stateA (toString 99) 5 = stateA := by
  have h : idAbsent stateA (toString 99) := by decide
  exact ⟨h, (claim_C8 stateA (toString 99) (toString 0) 5 (0, 0, 0) (0, 0, 0) reproEnvA h).1⟩

/-! ## Claim C10 — edge-arrival counting ignores ids -/

/-- A two-blob SUNSET store with no edge arrivals yet. -/
def stateSunset : GameState :=
  { stateA with
    blobs := [mkBlob 0 0, mkBlob 1 0]
    blobsById := buildBlobMap [mkBlob 0 0, mkBlob 1 0]
    phase := SimulationPhase.SUNSET
    sunsetStartTime := 0 }

/-- Initial timer refs. -/
def refsA : TimerRefs := { timeRef := 0, lastSyncedTime := 0, nightTimer := 0 }

/-- Claim C10: `markBlobAtEdge` increments `blobsAtEdge` by exactly one on
every call and ignores its id argument entirely; the Sunset exit compares
this raw count to the live non-zombie population, so two calls carrying the
same single id satisfy the exit for a two-consumer population: the first
timer step below stays in SUNSET, but after two `markBlobAtEdge` calls that
both pass the id of blob 0 (blob 1 never reported), the step exits to
NIGHT. -/
theorem claim_C10 :
    (∀ (s : GameState) (id₁ id₂ : String), markBlobAtEdge s id₁ = markBlobAtEdge s id₂) ∧
    (∀ (s : GameState) (id : String),
      (markBlobAtEdge s id).blobsAtEdge = s.blobsAtEdge + 1 ∧
      (markBlobAtEdge s id).blobs = s.blobs ∧
      (markBlobAtEdge s id).phase = s.phase ∧
      (markBlobAtEdge s id).blobsById = s.blobsById) ∧
    (timerStep judgeEnvA 10 5 1 stateSunset refsA).1.phase = SimulationPhase.SUNSET ∧
    (timerStep judgeEnvA 10 5 1
      (markBlobAtEdge (markBlobAtEdge stateSunset (mkBlob 0 0).id) (mkBlob 0 0).id)
      refsA).1.phase = SimulationPhase.NIGHT := by
  refine ⟨fun s id₁ id₂ => rfl, fun s id => ⟨rfl, rfl, rfl, rfl⟩, ?_, ?_⟩
  · norm_num [timerStep, stateSunset, stateA, mkBlob, genomeA, buildBlobMap,
      SUNSET_FAILSAFE_MS, startNight, setTimeRemaining, List.filter]
  · norm_num [timerStep, stateSunset, stateA, markBlobAtEdge, mkBlob, genomeA,
      buildBlobMap, SUNSET_FAILSAFE_MS, startNight, setTimeRemaining, List.filter]

/-! ## Claim C1 — judgment composition -/

/-- The judgment loop is exactly: survivors are the non-zombie consumers
with `foodEaten ≥ 1` (reset), babies are one per non-zombie consumer with
`foodEaten ≥ 2`, in encounter order. -/
theorem judgeLoop_eq (env : JudgeEnv) (l : List (BlobEntity ℚ)) :
    judgeLoop env l =
      ((l.filter (fun b => decide (b.beingEatenBy = none ∧ 1 ≤ b.foodEaten))).map (surviveReset env),
       (l.filter (fun b => decide (b.beingEatenBy = none ∧ 2 ≤ b.foodEaten))).map (makeBaby env)) := by
  induction l with
  | nil => rfl
  | cons b rest ih =>
      by_cases hz : b.beingEatenBy = none
      · by_cases h1 : b.foodEaten < 1
        · have h2 : ¬(2 ≤ b.foodEaten) := by
            intro hc; exact absurd h1 (not_lt.mpr (by linarith))
          have h1' : ¬(1 ≤ b.foodEaten) := not_le.mpr h1
          simp [judgeLoop, hz, h1, h1', h2, ih]
        · by_cases h2 : 2 ≤ b.foodEaten
          · have h1' : 1 ≤ b.foodEaten := not_lt.mp h1
            simp [judgeLoop, hz, h1, h1', h2, ih]
          · have h1' : 1 ≤ b.foodEaten := not_lt.mp h1
            simp [judgeLoop, hz, h1, h1', h2, ih]
      · simp [judgeLoop, hz, ih]

/-- A five-blob store entering judgment with `foodEaten = [0,1,2,2,0]`. -/
def stateFive : GameState :=
  { stateA with
    blobs := [mkBlob 0 0, mkBlob 1 1, mkBlob 2 2, mkBlob 3 2, mkBlob 4 0]
    blobsById := buildBlobMap [mkBlob 0 0, mkBlob 1 1, mkBlob 2 2, mkBlob 3 2, mkBlob 4 0] }

/-- Claim C1: for every population, `runJudgment` keeps exactly the
non-zombie consumers with `foodEaten ≥ 1` (reset to energy 100, foodEaten
0, a fresh edge position) and creates exactly one offspring per non-zombie
consumer with `foodEaten ≥ 2`, whose generation is its parent's plus one
(so non-zombie consumers with `foodEaten < 1` are exactly the ones
removed); in particular the five-consumer population with
`foodEaten = [0,1,2,2,0]` yields a post-judgment population of exactly 5. -/
theorem claim_C1 (env : JudgeEnv) (s : GameState) (foodCount : Nat) :
    ((runJudgment env s foodCount).blobs =
      (s.blobs.filter (fun b => decide (b.beingEatenBy = none ∧ 1 ≤ b.foodEaten))).map (surviveReset env)
      ++ (s.blobs.filter (fun b => decide (b.beingEatenBy = none ∧ 2 ≤ b.foodEaten))).map (makeBaby env)) ∧
    (∀ b : BlobEntity ℚ, (makeBaby env b).generation = b.generation + 1 ∧
      (makeBaby env b).parentId = some b.id ∧ (makeBaby env b).energy = 100 ∧
      (makeBaby env b).foodEaten = 0 ∧
      (makeBaby env b).genome = mutate b.genome (env.mutU b.id).1 (env.mutU b.id).2.1 (env.mutU b.id).2.2) ∧
    (∀ b : BlobEntity ℚ, (surviveReset env b).id = b.id ∧ (surviveReset env b).energy = 100 ∧
      (surviveReset env b).foodEaten = 0 ∧
      (surviveReset env b).position = generateEdgePosition (env.survivorDir b.id) ∧
      (surviveReset env b).generation = b.generation ∧
      (surviveReset env b).genome = b.genome) ∧
    (runJudgment env stateFive foodCount).blobs.length = 5 := by
  have hrun : ∀ (s' : GameState), (runJudgment env s' foodCount).blobs =
      (s'.blobs.filter (fun b => decide (b.beingEatenBy = none ∧ 1 ≤ b.foodEaten))).map (surviveReset env)
      ++ (s'.blobs.filter (fun b => decide (b.beingEatenBy = none ∧ 2 ≤ b.foodEaten))).map (makeBaby env) := by
    intro s'
    simp only [runJudgment, judgeLoop_eq]
  refine ⟨hrun s, fun b => ⟨rfl, rfl, rfl, rfl, rfl⟩, fun b => ⟨rfl, rfl, rfl, rfl, rfl, rfl⟩, ?_⟩
  rw [hrun stateFive]
  norm_num [stateFive, stateA, mkBlob, List.filter]

/-! ## Claim C4 — phase transitions (corrected) -/

/-- A concrete food entity. -/
def foodA : FoodEntity ℚ := { id := toString 500, position := (1, 0, 1) }

/-- A DAY store holding one food (so no fast-forward applies). -/
def stateDayF : GameState :=
  { stateA with foods := [foodA], foodsById := buildFoodMap [foodA], timeRemaining := 4 }

/-- Timer refs mid-countdown at 3.5 s. -/
def refsDay : TimerRefs := { timeRef := 7/2, lastSyncedTime := 7/2, nightTimer := 0 }

/-- Amended claim C4: with `dayDuration = 30` and `failsafe = 10000` ms, the
phase becomes Sunset exactly when the Day countdown reaches 0 (not 3.0 —
at 3 s remaining only the agents' behaviour switches to Returning, the
phase stays Day), and Sunset becomes Night at the first frame at which
every live non-zombie consumer has reported at-edge, or strictly more than
10000 ms of wall clock have elapsed since Sunset began, or the live
non-zombie population is zero — whichever holds first. -/
theorem claim_C4_amended (env : JudgeEnv) (foodCount : Nat) (now delta : ℚ)
    (s : GameState) (r : TimerRefs) (hp : s.isPaused = false) :
    (s.phase = SimulationPhase.DAY →
      ((timerStep env foodCount now delta s r).1.phase = SimulationPhase.SUNSET ↔
        r.timeRef -
          (if s.foods.length = 0 then delta * s.simulationSpeed * FAST_FORWARD_MULTIPLIER
           else delta * s.simulationSpeed) ≤ 0)) ∧
    (s.phase = SimulationPhase.SUNSET →
      ((timerStep env foodCount now delta s r).1.phase = SimulationPhase.NIGHT ↔
        ((s.blobs.filter (fun b => b.beingEatenBy = none)).length ≤ s.blobsAtEdge ∨
          SUNSET_FAILSAFE_MS < now - s.sunsetStartTime ∨
          (s.blobs.filter (fun b => b.beingEatenBy = none)).length = 0))) := by
  constructor
  · intro hd
    simp only [timerStep, hp, Bool.false_eq_true, if_false, hd]
    by_cases ht : r.timeRef -
        (if s.foods.length = 0 then delta * s.simulationSpeed * FAST_FORWARD_MULTIPLIER
         else delta * s.simulationSpeed) ≤ 0
    · exact iff_of_true (by rw [if_pos ht]; rfl) ht
    · refine iff_of_false ?_ ht
      rw [if_neg ht]
      intro hph
      have hs : s.phase = SimulationPhase.SUNSET := by
        dsimp only at hph
        split at hph <;> split at hph <;> exact hph
      rw [hd] at hs
      exact SimulationPhase.noConfusion hs
  · intro hd
    simp only [timerStep, hp, Bool.false_eq_true, if_false, hd]
    by_cases hx : (s.blobs.filter (fun b => b.beingEatenBy = none)).length ≤ s.blobsAtEdge ∨
        SUNSET_FAILSAFE_MS < now - s.sunsetStartTime ∨
        (s.blobs.filter (fun b => b.beingEatenBy = none)).length = 0
    · exact iff_of_true (by rw [if_pos hx]; rfl) hx
    · refine iff_of_false ?_ hx
      rw [if_neg hx]
      intro hph
      have hs : s.phase = SimulationPhase.NIGHT := hph
      rw [hd] at hs
      exact SimulationPhase.noConfusion hs

/-- Witness for the amended C4: the Sunset-exit equivalence instantiated on
the concrete two-blob SUNSET store, 20000 ms after Sunset began. -/
theorem claim_C4_amended_witness :
    stateSunset.isPaused = false ∧
    ((timerStep judgeEnvA 10 20000 1 stateSunset refsA).1.phase = SimulationPhase.NIGHT ↔
      ((stateSunset.blobs.filter (fun b => b.beingEatenBy = none)).length ≤ stateSunset.blobsAtEdge ∨
        SUNSET_FAILSAFE_MS < 20000 - stateSunset.sunsetStartTime ∨
        (stateSunset.blobs.filter (fun b => b.beingEatenBy = none)).length = 0)) :=
  ⟨rfl, (claim_C4_amended judgeEnvA 10 20000 1 stateSunset refsA rfl).2 rfl⟩

/-- Counterexample to C4 as stated: a Day frame whose countdown lands
exactly on remaining = 3.0 leaves the phase at DAY — the phase does not
become Sunset at the 3-second threshold (the current timer switches at 0). -/
theorem claim_C4_counterexample :
    (timerStep judgeEnvA 10 0 (1/2) stateDayF refsDay).2.timeRef = 3 ∧
    (timerStep judgeEnvA 10 0 (1/2) stateDayF refsDay).1.timeRemaining = 3 ∧
    (timerStep judgeEnvA 10 0 (1/2) stateDayF refsDay).1.phase = SimulationPhase.DAY := by
  have hce : (⌈(7/2 : ℚ)⌉ : ℤ) = 4 := by
    rw [Int.ceil_eq_iff]
    norm_num
  refine ⟨?_, ?_, ?_⟩ <;>
    norm_num [timerStep, stateDayF, stateA, refsDay, foodA, buildFoodMap,
      setTimeRemaining, FAST_FORWARD_MULTIPLIER, hce]

/-! ## Claim C5 — queryRadius completeness and scan bound -/

/-- Membership in the scanned offset range is exactly `-R ≤ d ≤ R`. -/
theorem mem_queryOffsets (R d : ℤ) : d ∈ queryOffsets R ↔ -R ≤ d ∧ d ≤ R := by
  unfold queryOffsets
  simp only [List.mem_map, List.mem_range]
  constructor
  · rintro ⟨i, hi, rfl⟩
    omega
  · intro h
    exact ⟨(d + R).toNat, by omega, by omega⟩

/-- Membership in an option-valued cell lookup. -/
theorem mem_cellOpt {o : Option (List String)} {id : String} :
    (id ∈ match o with | none => ([] : List String) | some cell => cell) ↔
      ∃ s, o = some s ∧ id ∈ s := by
  cases o <;> simp

/-- Unfolding membership in `gridQueryRadius`. -/
theorem mem_gridQueryRadius_iff (g : SpatialGrid) (x z radius : ℚ) (id : String) :
    id ∈ gridQueryRadius g x z radius ↔
      ∃ dx dz : ℤ,
        (-Int.ceil (radius / g.cellSize) ≤ dx ∧ dx ≤ Int.ceil (radius / g.cellSize)) ∧
        (-Int.ceil (radius / g.cellSize) ≤ dz ∧ dz ≤ Int.ceil (radius / g.cellSize)) ∧
        ∃ s, mget g.cells
            (Int.floor (x / g.cellSize) + dx, Int.floor (z / g.cellSize) + dz) = some s ∧
          id ∈ s := by
  unfold gridQueryRadius
  simp only [List.mem_flatMap, mem_queryOffsets, mem_cellOpt]
  constructor
  · rintro ⟨dx, hdx, dz, hdz, s, hs, hid⟩
    exact ⟨dx, dz, hdx, hdz, s, hs, hid⟩
  · rintro ⟨dx, dz, hdx, hdz, s, hs, hid⟩
    exact ⟨dx, hdx, dz, hdz, s, hs, hid⟩

/-- If `|p - x| ≤ r` then the cells of `p` and `x` differ by at most
`⌈r / c⌉` cell steps. -/
theorem floor_cell_bound (c x p r : ℚ) (hc : 0 < c) (h : |p - x| ≤ r) :
    |Int.floor (p / c) - Int.floor (x / c)| ≤ Int.ceil (r / c) := by
  rw [abs_le] at h
  have hru : p / c ≤ x / c + (Int.ceil (r / c) : ℚ) := by
    have h1 : p / c ≤ (x + r) / c := (div_le_div_iff_of_pos_right hc).mpr (by linarith)
    have h2 : (x + r) / c = x / c + r / c := add_div x r c
    have h3 : r / c ≤ (Int.ceil (r / c) : ℚ) := Int.le_ceil _
    linarith
  have hrl : x / c - (Int.ceil (r / c) : ℚ) ≤ p / c := by
    have h1 : (x - r) / c ≤ p / c := (div_le_div_iff_of_pos_right hc).mpr (by linarith)
    have h2 : (x - r) / c = x / c - r / c := sub_div x r c
    have h3 : r / c ≤ (Int.ceil (r / c) : ℚ) := Int.le_ceil _
    linarith
  rw [abs_le]
  constructor
  · have := Int.floor_mono hrl
    rw [show x / c - (Int.ceil (r / c) : ℚ) = x / c - ((Int.ceil (r / c) : ℤ) : ℚ) by norm_num,
      Int.floor_sub_int] at this
    omega
  · have := Int.floor_mono hru
    rw [show x / c + (Int.ceil (r / c) : ℚ) = x / c + ((Int.ceil (r / c) : ℤ) : ℚ) by norm_num,
      Int.floor_add_int] at this
    omega

/-- Claim C5: `gridQueryRadius` returns every indexed id whose recorded cell
is the cell of a position within exact Euclidean distance `r` of the query
point (stated on squared distances), and every returned id comes from a
cell at most `⌈r / cellSize⌉` cell-steps from the query point's cell. -/
theorem claim_C5 (g : SpatialGrid) (x z radius px pz : ℚ) (id : String) (s : List String)
    (hc : 0 < g.cellSize) (hr : 0 ≤ radius)
    (hmem : mget g.cells (getCellKey px pz g.cellSize) = some s) (hid : id ∈ s)
    (hdist : (px - x) ^ 2 + (pz - z) ^ 2 ≤ radius ^ 2) :
    id ∈ gridQueryRadius g x z radius ∧
    ∀ j ∈ gridQueryRadius g x z radius, ∃ (kx kz : ℤ) (t : List String),
      mget g.cells (kx, kz) = some t ∧ j ∈ t ∧
      |kx - Int.floor (x / g.cellSize)| ≤ Int.ceil (radius / g.cellSize) ∧
      |kz - Int.floor (z / g.cellSize)| ≤ Int.ceil (radius / g.cellSize) := by
  constructor
  · have hxb : |px - x| ≤ radius := by
      apply abs_le_of_sq_le_sq _ hr
      nlinarith [sq_nonneg (pz - z)]
    have hzb : |pz - z| ≤ radius := by
      apply abs_le_of_sq_le_sq _ hr
      nlinarith [sq_nonneg (px - x)]
    have hbx := floor_cell_bound g.cellSize x px radius hc hxb
    have hbz := floor_cell_bound g.cellSize z pz radius hc hzb
    rw [mem_gridQueryRadius_iff]
    refine ⟨Int.floor (px / g.cellSize) - Int.floor (x / g.cellSize),
      Int.floor (pz / g.cellSize) - Int.floor (z / g.cellSize),
      ⟨?_, ?_⟩, ⟨?_, ?_⟩, s, ?_, hid⟩
    · rw [abs_le] at hbx; omega
    · rw [abs_le] at hbx; omega
    · rw [abs_le] at hbz; omega
    · rw [abs_le] at hbz; omega
    · have hk : (Int.floor (x / g.cellSize) + (Int.floor (px / g.cellSize) - Int.floor (x / g.cellSize)),
          Int.floor (z / g.cellSize) + (Int.floor (pz / g.cellSize) - Int.floor (z / g.cellSize))) =
          getCellKey px pz g.cellSize := by
        unfold getCellKey
        simp only [Prod.mk.injEq]
        omega
      rw [hk]
      exact hmem
  · intro j hj
    rw [mem_gridQueryRadius_iff] at hj
    obtain ⟨dx, dz, hdx, hdz, t, ht, hjt⟩ := hj
    refine ⟨Int.floor (x / g.cellSize) + dx, Int.floor (z / g.cellSize) + dz, t, ht, hjt, ?_, ?_⟩
    · rw [abs_le]; omega
    · rw [abs_le]; omega

/-- A one-cell grid fixture: entity 7 recorded in cell (0,0) of a
5-unit grid. -/
def gridW : SpatialGrid :=
  { cellSize := 5, cells := [((0, 0), [toString 7])], entityCells := [(toString 7, (0, 0))] }

/-- Witness for C5: entity 7 at position (2,0) lies within distance 3 of the
query point (1,0) and is returned by the scan. -/
theorem claim_C5_witness :
    (0 : ℚ) < gridW.cellSize ∧ toString 7 ∈ gridQueryRadius gridW 1 0 3 := by
  have hc : (0 : ℚ) < gridW.cellSize := by norm_num [gridW]
  have hf1 : (Int.floor ((2 : ℚ) / 5) : ℤ) = 0 := by
    rw [Int.floor_eq_iff]
    norm_num
  have hf2 : (Int.floor ((0 : ℚ) / 5) : ℤ) = 0 := by norm_num
  have hkey : getCellKey 2 0 gridW.cellSize = (0, 0) := by
    unfold getCellKey
    rw [show gridW.cellSize = 5 from rfl, hf1, hf2]
  have hmem : mget gridW.cells (getCellKey 2 0 gridW.cellSize) = some [toString 7] := by
    rw [hkey]
    rfl
  have hid : toString 7 ∈ [toString 7] := List.mem_singleton.mpr rfl
  have hdist : ((2 : ℚ) - 1) ^ 2 + ((0 : ℚ) - 0) ^ 2 ≤ 3 ^ 2 := by norm_num
  exact ⟨hc, (claim_C5 gridW 1 0 3 2 0 (toString 7) [toString 7] hc (by norm_num)
    hmem hid hdist).1⟩

/-! ## Claim C2 — at-most-one foodEaten credit per target id -/

/-- Credit contributed by one optional credit event. -/
def creditF (f : String) : Option (String × String) → Nat
  | none => 0
  | some c => if c.2 = f then 1 else 0

/-- A store whose blob id-map is keyed by the blobs' own ids (true of every
store the code builds, since entries are only ever created as
`(blob.id, blob)`). -/
def blobsKeyed (s : GameState) : Prop :=
  ∀ k b, mget s.blobsById k = some b → b.id = k

/-- Entries of `buildBlobMap` are keyed by their blob's id. -/
theorem mget_buildBlobMap_id (l : List (BlobEntity ℚ)) (k : String) (b : BlobEntity ℚ)
    (h : mget (buildBlobMap l) k = some b) : b.id = k := by
  induction l with
  | nil => simp [buildBlobMap, mget] at h
  | cons a t ih =>
      by_cases ha : a.id = k
      · have hself : mget (buildBlobMap (a :: t)) k = some a := by
          simp [buildBlobMap, mget, List.find?, ha]
        rw [hself] at h
        injection h with h2
        rw [← h2]
        exact ha
      · exact ih (by simpa [buildBlobMap, mget, List.find?, ha] using h)

theorem foodLive_incrementFoodEaten (s : GameState) (id f : String) :
    foodLive (incrementFoodEaten s id) f = foodLive s f := by
  cases hm : mget s.blobsById id with
  | none => simp only [incrementFoodEaten, hm]
  | some b => simp only [incrementFoodEaten, hm, foodLive]

theorem foodLive_syncBlobPosition (s : GameState) (id f : String) (pos : Triplet) :
    foodLive (syncBlobPosition s id pos) f = foodLive s f := by
  cases hm : mget s.blobsById id with
  | none => simp only [syncBlobPosition, hm]
  | some b => simp only [syncBlobPosition, hm, foodLive]

theorem foodLive_markBlobAsEaten (s : GameState) (p a f : String) (pos : Triplet) :
    foodLive (markBlobAsEaten s p a pos) f = foodLive s f := by
  cases hm : mget s.blobsById p with
  | none => simp only [markBlobAsEaten, hm]
  | some b => simp only [markBlobAsEaten, hm, foodLive]

theorem foodLive_removeFood (s : GameState) (t f : String) :
    foodLive (removeFood s t) f = if f = t then false else foodLive s f := by
  by_cases hf : f = t
  · subst hf
    simp only [removeFood, foodLive, if_true, mget_mdel_self]
    rfl
  · simp only [removeFood, foodLive, hf, if_false, mget_mdel_ne _ _ _ hf]

theorem preyLive_incrementFoodEaten (s : GameState) (id f : String) :
    preyLive (incrementFoodEaten s id) f = preyLive s f := by
  cases hm : mget s.blobsById id with
  | none => simp only [incrementFoodEaten, hm]
  | some b =>
      by_cases hf : f = id
      · subst hf
        simp only [incrementFoodEaten, hm, preyLive, mget_mset_self]
      · simp only [incrementFoodEaten, hm, preyLive, mget_mset_ne _ _ _ _ hf]

theorem preyLive_syncBlobPosition (s : GameState) (id f : String) (pos : Triplet) :
    preyLive (syncBlobPosition s id pos) f = preyLive s f := by
  cases hm : mget s.blobsById id with
  | none => simp only [syncBlobPosition, hm]
  | some b =>
      by_cases hf : f = id
      · subst hf
        simp only [syncBlobPosition, hm, preyLive, mget_mset_self]
      · simp only [syncBlobPosition, hm, preyLive, mget_mset_ne _ _ _ _ hf]

theorem preyLive_markBlobAsEaten (s : GameState) (p a f : String) (pos : Triplet) :
    preyLive (markBlobAsEaten s p a pos) f = if f = p then false else preyLive s f := by
  cases hm : mget s.blobsById p with
  | none =>
      by_cases hf : f = p
      · subst hf
        simp only [markBlobAsEaten, hm, preyLive, if_true]
      · simp only [markBlobAsEaten, hm, hf, if_false]
  | some b =>
      by_cases hf : f = p
      · subst hf
        simp only [markBlobAsEaten, hm, preyLive, mget_mset_self, if_true, Option.isNone_some]
      · simp only [markBlobAsEaten, hm, preyLive, hf, if_false, mget_mset_ne _ _ _ _ hf]

theorem preyLive_removeFood (s : GameState) (t f : String) :
    preyLive (removeFood s t) f = preyLive s f := by
  simp only [removeFood, preyLive]

theorem blobsKeyed_incrementFoodEaten (s : GameState) (id : String)
    (hk : blobsKeyed s) : blobsKeyed (incrementFoodEaten s id) := by
  cases hm : mget s.blobsById id with
  | none =>
      intro k c hc
      exact hk k c (by simpa only [incrementFoodEaten, hm] using hc)
  | some b =>
      intro k c hc
      simp only [incrementFoodEaten, hm] at hc
      by_cases hkey : k = id
      · subst hkey
        rw [mget_mset_self] at hc
        have hbid := hk k b hm
        cases hc
        exact hbid
      · rw [mget_mset_ne _ _ _ _ hkey] at hc
        exact hk k c hc

theorem blobsKeyed_syncBlobPosition (s : GameState) (id : String) (pos : Triplet)
    (hk : blobsKeyed s) : blobsKeyed (syncBlobPosition s id pos) := by
  cases hm : mget s.blobsById id with
  | none =>
      intro k c hc
      exact hk k c (by simpa only [syncBlobPosition, hm] using hc)
  | some b =>
      intro k c hc
      simp only [syncBlobPosition, hm] at hc
      by_cases hkey : k = id
      · subst hkey
        rw [mget_mset_self] at hc
        have hbid := hk k b hm
        cases hc
        exact hbid
      · rw [mget_mset_ne _ _ _ _ hkey] at hc
        exact hk k c hc

theorem blobsKeyed_markBlobAsEaten (s : GameState) (p a : String) (pos : Triplet)
    (hk : blobsKeyed s) : blobsKeyed (markBlobAsEaten s p a pos) := by
  cases hm : mget s.blobsById p with
  | none =>
      intro k c hc
      exact hk k c (by simpa only [markBlobAsEaten, hm] using hc)
  | some b =>
      intro k c hc
      simp only [markBlobAsEaten, hm] at hc
      by_cases hkey : k = p
      · subst hkey
        rw [mget_mset_self] at hc
        have hbid := hk k b hm
        cases hc
        exact hbid
      · rw [mget_mset_ne _ _ _ _ hkey] at hc
        exact hk k c hc

theorem blobsKeyed_removeFood (s : GameState) (t : String)
    (hk : blobsKeyed s) : blobsKeyed (removeFood s t) := by
  intro k c hc
  exact hk k c hc

/-- The live-credit budget never increases across one eating step, and a
credit for `f` strictly consumes one unit of it. -/
theorem eatStep_bound (sc : GameState × Consumed) (e : EatEvent) (f : String)
    (hk : blobsKeyed sc.1) :
    creditF f (eatStep sc e).2 + liveCount (eatStep sc e).1.1 f ≤ liveCount sc.1 f := by
  obtain ⟨s, consumed⟩ := sc
  obtain ⟨a, ty, t, pos⟩ := e
  cases ty with
  | food =>
      simp only [eatStep]
      split
      · simp [creditF]
      · cases hm : mget s.foodsById t with
        | none => simp [hm, creditF]
        | some fd =>
            simp only [hm]
            have hfl : ∀ f', foodLive (syncBlobPosition (incrementFoodEaten (removeFood s t) a) a pos) f' =
                (if f' = t then false else foodLive s f') := by
              intro f'
              rw [foodLive_syncBlobPosition, foodLive_incrementFoodEaten, foodLive_removeFood]
            have hpl : ∀ f', preyLive (syncBlobPosition (incrementFoodEaten (removeFood s t) a) a pos) f' =
                preyLive s f' := by
              intro f'
              rw [preyLive_syncBlobPosition, preyLive_incrementFoodEaten, preyLive_removeFood]
            by_cases hf : f = t
            · subst hf
              have hlive : foodLive s f = true := by
                simp [foodLive, hm]
              cases hb : preyLive s f <;>
                simp [creditF, liveCount, hfl, hpl, hlive, hb]
            · simp [creditF, liveCount, hfl, hpl, hf, Ne.symm hf]
  | blob =>
      simp only [eatStep]
      split
      · simp [creditF]
      · split
        · simp [creditF]
        · cases hm : mget s.blobsById t with
          | none => simp [hm, creditF]
          | some prey =>
              simp only [hm]
              split
              · simp [creditF]
              · rename_i hzomb
                have hpid : prey.id = t := hk t prey hm
                have hfl : ∀ f', foodLive (syncBlobPosition (incrementFoodEaten (markBlobAsEaten s prey.id a pos) a) a pos) f' =
                    foodLive s f' := by
                  intro f'
                  rw [foodLive_syncBlobPosition, foodLive_incrementFoodEaten, foodLive_markBlobAsEaten]
                have hpl : ∀ f', preyLive (syncBlobPosition (incrementFoodEaten (markBlobAsEaten s prey.id a pos) a) a pos) f' =
                    (if f' = t then false else preyLive s f') := by
                  intro f'
                  rw [preyLive_syncBlobPosition, preyLive_incrementFoodEaten, preyLive_markBlobAsEaten, hpid]
                by_cases hf : f = t
                · subst hf
                  have hlive : preyLive s f = true := by
                    simp only [preyLive, hm]
                    simpa using hzomb
                  cases hb : foodLive s f <;>
                    simp [creditF, liveCount, hfl, hpl, hlive, hb]
                · simp [creditF, liveCount, hfl, hpl, hf, Ne.symm hf]

/-- `blobsKeyed` is preserved by one eating step. -/
theorem eatStep_keyed (sc : GameState × Consumed) (e : EatEvent)
    (hk : blobsKeyed sc.1) : blobsKeyed (eatStep sc e).1.1 := by
  obtain ⟨s, consumed⟩ := sc
  obtain ⟨a, ty, t, pos⟩ := e
  cases ty with
  | food =>
      simp only [eatStep]
      split
      · exact hk
      · cases hm : mget s.foodsById t with
        | none => simpa [hm] using hk
        | some fd =>
            simp only [hm]
            exact blobsKeyed_syncBlobPosition _ _ _
              (blobsKeyed_incrementFoodEaten _ _ (blobsKeyed_removeFood _ _ hk))
  | blob =>
      simp only [eatStep]
      split
      · exact hk
      · split
        · exact hk
        · cases hm : mget s.blobsById t with
          | none => simpa [hm] using hk
          | some prey =>
              simp only [hm]
              split
              · exact hk
              · exact blobsKeyed_syncBlobPosition _ _ _
                  (blobsKeyed_incrementFoodEaten _ _ (blobsKeyed_markBlobAsEaten _ _ _ _ hk))

/-- Credits in an optional singleton. -/
theorem creditCount_optToList (f : String) (o : Option (String × String)) :
    creditCount f o.toList = creditF f o := by
  cases o with
  | none => rfl
  | some c =>
      by_cases hc : c.2 = f <;> simp [creditCount, creditF, hc]

/-- Credits are additive over concatenation. -/
theorem creditCount_append (f : String) (xs ys : List (String × String)) :
    creditCount f (xs ++ ys) = creditCount f xs + creditCount f ys := by
  simp [creditCount, List.filter_append]

/-- Over any event sequence, the total number of credits for `f` plus the
remaining budget never exceeds the initial budget. -/
theorem runEat_bound (evts : List EatEvent) (sc : GameState × Consumed) (f : String)
    (hk : blobsKeyed sc.1) :
    creditCount f (runEat sc evts).2 + liveCount (runEat sc evts).1.1 f ≤ liveCount sc.1 f := by
  induction evts generalizing sc with
  | nil => simp [runEat, creditCount]
  | cons e rest ih =>
      have h1 := eatStep_bound sc e f hk
      have h2 := ih (eatStep sc e).1 (eatStep_keyed sc e hk)
      simp only [runEat, creditCount_append, creditCount_optToList]
      omega

/-- Claim C2: for every target id and every sequence of eating steps by any
set of agents, that id contributes at most one `foodEaten` increment in
total (given that an id does not denote both a live food and a live blob,
as uuids are unique); and once the id is consumed — food removed or prey
marked `beingEatenBy` — no later eating step credits it again. -/
theorem claim_C2 (sc : GameState × Consumed) (evts : List EatEvent) (f : String)
    (hk : blobsKeyed sc.1)
    (hone : mget sc.1.foodsById f = none ∨ mget sc.1.blobsById f = none) :
    creditCount f (runEat sc evts).2 ≤ 1 ∧
    (foodLive sc.1 f = false ∧ preyLive sc.1 f = false →
      creditCount f (runEat sc evts).2 = 0) := by
  have hbound := runEat_bound evts sc f hk
  constructor
  · have hlc : liveCount sc.1 f ≤ 1 := by
      rcases hone with h | h
      · have hfl : foodLive sc.1 f = false := by simp [foodLive, h]
        unfold liveCount
        rw [hfl]
        cases hb : preyLive sc.1 f <;> simp
      · have hpl : preyLive sc.1 f = false := by simp [preyLive, h]
        unfold liveCount
        rw [hpl]
        cases hb : foodLive sc.1 f <;> simp
    omega
  · intro ⟨h1, h2⟩
    have hlc : liveCount sc.1 f = 0 := by simp [liveCount, h1, h2]
    omega

/-- A one-blob one-food DAY store. -/
def stateW : GameState :=
  { stateA with foods := [foodA], foodsById := buildFoodMap [foodA] }

/-- Two agents both attempting to eat the same food id. -/
def evW : List EatEvent :=
  [{ agentId := toString 0, targetType := TargetType.food, targetId := foodA.id, pos := (0, 1, 0) },
   { agentId := toString 1, targetType := TargetType.food, targetId := foodA.id, pos := (0, 1, 0) }]

/-- Witness for C2: on the concrete store, two frames in which two agents
both report eating food 500 credit it at most once. -/
theorem claim_C2_witness :
    blobsKeyed stateW ∧ creditCount foodA.id (runEat (stateW, ([] : Consumed)) evW).2 ≤ 1 := by
  have hk : blobsKeyed stateW := fun k b h => mget_buildBlobMap_id [mkBlob 0 0] k b h
  exact ⟨hk, (claim_C2 (stateW, ([] : Consumed)) evW foodA.id hk (Or.inr rfl)).1⟩

/-! ## Claim C6 — spatial grid invariant (corrected) -/

theorem mget_mset {κ β : Type} [DecidableEq κ] (m : List (κ × β)) (k k' : κ) (v : β) :
    mget (mset m k v) k' = if k' = k then some v else mget m k' := by
  by_cases h : k' = k
  · subst h
    rw [if_pos rfl, mget_mset_self]
  · rw [if_neg h, mget_mset_ne _ _ _ _ h]

theorem mget_mdel {κ β : Type} [DecidableEq κ] (m : List (κ × β)) (k k' : κ) :
    mget (mdel m k) k' = if k' = k then none else mget m k' := by
  by_cases h : k' = k
  · subst h
    rw [if_pos rfl, mget_mdel_self]
  · rw [if_neg h, mget_mdel_ne _ _ _ h]

theorem mem_setAdd {s : List String} {x y : String} :
    x ∈ setAdd s y ↔ x ∈ s ∨ x = y := by
  unfold setAdd
  by_cases h : y ∈ s
  · simp only [h, if_true]
    constructor
    · exact Or.inl
    · rintro (hx | rfl)
      · exact hx
      · exact h
  · simp [h]

theorem mem_setDel {s : List String} {x y : String} :
    x ∈ setDel s y ↔ x ∈ s ∧ x ≠ y := by
  simp [setDel]

theorem setAdd_ne_nil (s : List String) (x : String) : setAdd s x ≠ [] := by
  unfold setAdd
  by_cases h : x ∈ s
  · simp only [h, if_true]
    intro hnil
    rw [hnil] at h
    exact absurd h (List.not_mem_nil x)
  · simp [h]

/-- A grid operation: the three index mutators. -/
inductive GridOp : Type
  | ins (id : String) (pos : Triplet)
  | rem (id : String)
  | upd (id : String) (pos : Triplet)

/-- Apply one grid operation. -/
def applyOp (g : SpatialGrid) : GridOp → SpatialGrid
  | GridOp.ins id pos => gridInsert g id pos
  | GridOp.rem id => gridRemove g id
  | GridOp.upd id pos => gridUpdate g id pos

/-- Apply a sequence of grid operations. -/
def applyOps (g : SpatialGrid) (ops : List GridOp) : SpatialGrid :=
  ops.foldl applyOp g

/-- Every `gridInsert` in the sequence targets an id that is unindexed at
the moment the insert runs. -/
def opsFresh : SpatialGrid → List GridOp → Prop
  | _, [] => True
  | g, op :: rest =>
      (match op with
       | GridOp.ins id _ => mget g.entityCells id = none
       | _ => True) ∧ opsFresh (applyOp g op) rest

/-- The last position written for each id by a sequence of operations. -/
def trackPos (p : String → Option Triplet) : List GridOp → (String → Option Triplet)
  | [] => p
  | op :: rest =>
      trackPos
        (match op with
         | GridOp.ins id pos => fun x => if x = id then some pos else p x
         | GridOp.rem id => fun x => if x = id then none else p x
         | GridOp.upd id pos => fun x => if x = id then some pos else p x) rest

/-- The spatial-grid invariant relative to the last written positions `p`:
every indexed id has its recorded cell equal to the cell of its last
written position and belongs to that cell's id-set; every stored cell is
nonempty and all its members index back to exactly that cell (so each id
belongs to exactly one cell's id-set). -/
def GridWF (g : SpatialGrid) (p : String → Option Triplet) : Prop :=
  (∀ id k, mget g.entityCells id = some k →
     (∃ pos, p id = some pos ∧ k = getCellKey pos.1 pos.2.2 g.cellSize) ∧
     (∃ s, mget g.cells k = some s ∧ id ∈ s)) ∧
  (∀ k s, mget g.cells k = some s → s ≠ [] ∧ ∀ id ∈ s, mget g.entityCells id = some k)

/-- The empty grid is well-formed. -/
theorem GridWF_empty (c : ℚ) : GridWF (createSpatialGrid c) (fun _ => none) := by
  constructor
  · intro id k h
    simp [createSpatialGrid, mget] at h
  · intro k s h
    simp [createSpatialGrid, mget] at h

/-- `gridInsert` of an unindexed id preserves the invariant. -/
theorem GridWF_gridInsert (g : SpatialGrid) (p : String → Option Triplet)
    (id : String) (pos : Triplet) (hw : GridWF g p)
    (hfresh : mget g.entityCells id = none) :
    GridWF (gridInsert g id pos) (fun x => if x = id then some pos else p x) := by
  obtain ⟨hw1, hw2⟩ := hw
  have hcells : (gridInsert g id pos).cells =
      (match mget g.cells (getCellKey pos.1 pos.2.2 g.cellSize) with
       | none => mset g.cells (getCellKey pos.1 pos.2.2 g.cellSize) [id]
       | some s => mset g.cells (getCellKey pos.1 pos.2.2 g.cellSize) (setAdd s id)) := rfl
  have hec : (gridInsert g id pos).entityCells =
      mset g.entityCells id (getCellKey pos.1 pos.2.2 g.cellSize) := rfl
  have hcs : (gridInsert g id pos).cellSize = g.cellSize := rfl
  set key := getCellKey pos.1 pos.2.2 g.cellSize with hkey
  have hmem : ∀ id', id' ∈ ((match mget g.cells key with
       | none => ([id] : List String)
       | some s => setAdd s id)) ↔
      (id' = id ∨ ∃ s, mget g.cells key = some s ∧ id' ∈ s) := by
    intro id'
    cases hg : mget g.cells key with
    | none => simp
    | some s =>
        simp only [mem_setAdd]
        constructor
        · rintro (h | h)
          · exact Or.inr ⟨s, rfl, h⟩
          · exact Or.inl h
        · rintro (h | ⟨t, ht, hm⟩)
          · exact Or.inr h
          · cases ht
            exact Or.inl hm
  have hcells_get : ∀ k', mget (gridInsert g id pos).cells k' =
      if k' = key then some (match mget g.cells key with
        | none => ([id] : List String)
        | some s => setAdd s id)
      else mget g.cells k' := by
    intro k'
    rw [hcells]
    cases hg : mget g.cells key with
    | none => rw [mget_mset]
    | some s => rw [mget_mset]
  constructor
  · intro id' k' h
    rw [hec, mget_mset] at h
    by_cases hid : id' = id
    · subst hid
      rw [if_pos rfl] at h
      cases h
      constructor
      · exact ⟨pos, by simp, by rw [hcs]⟩
      · have hg := hcells_get key
        rw [if_pos rfl] at hg
        cases hval : mget g.cells key with
        | none =>
            rw [hval] at hg
            exact ⟨_, hg, by simp⟩
        | some s =>
            rw [hval] at hg
            exact ⟨_, hg, by rw [mem_setAdd]; exact Or.inr rfl⟩
    · rw [if_neg hid] at h
      obtain ⟨⟨pos', hp', hk'⟩, ⟨s', hs', hm'⟩⟩ := hw1 id' k' h
      constructor
      · exact ⟨pos', by simp [hid, hp'], by rw [hcs]; exact hk'⟩
      · by_cases hkk : k' = key
        · subst hkk
          have hg := hcells_get key
          rw [if_pos rfl] at hg
          refine ⟨_, hg, ?_⟩
          rw [hmem]
          exact Or.inr ⟨s', hs', hm'⟩
        · exact ⟨s', by rw [hcells_get k', if_neg hkk]; exact hs', hm'⟩
  · intro k' s' h
    rw [hcells_get k'] at h
    by_cases hkk : k' = key
    · rw [if_pos hkk] at h
      subst hkk
      cases hval : mget g.cells key with
      | none =>
          rw [hval] at h
          cases h
          constructor
          · simp
          · intro id' hm'
            have : id' = id := by simpa using hm'
            subst this
            rw [hec, mget_mset, if_pos rfl]
      | some s =>
          rw [hval] at h
          cases h
          constructor
          · exact setAdd_ne_nil s id
          · intro id' hm'
            rw [mem_setAdd] at hm'
            rcases hm' with hm' | rfl
            · have hold := (hw2 key s hval).2 id' hm'
              have hne : id' ≠ id := by
                intro hc
                rw [hc, hfresh] at hold
                exact Option.noConfusion hold
              rw [hec, mget_mset, if_neg hne]
              exact hold
            · rw [hec, mget_mset, if_pos rfl]
    · rw [if_neg hkk] at h
      obtain ⟨hne, hall⟩ := hw2 k' s' h
      refine ⟨hne, fun id' hm' => ?_⟩
      have hold := hall id' hm'
      have hne' : id' ≠ id := by
        intro hc
        rw [hc, hfresh] at hold
        exact Option.noConfusion hold
      rw [hec, mget_mset, if_neg hne']
      exact hold

/-- `gridRemove` preserves the invariant (with the id's tracked position
cleared). -/
theorem GridWF_gridRemove (g : SpatialGrid) (p : String → Option Triplet)
    (id : String) (hw : GridWF g p) :
    GridWF (gridRemove g id) (fun x => if x = id then none else p x) := by
  obtain ⟨hw1, hw2⟩ := hw
  cases hold : mget g.entityCells id with
  | none =>
      have hg : gridRemove g id = g := by simp [gridRemove, hold]
      rw [hg]
      constructor
      · intro id' k h
        have hne : id' ≠ id := by
          intro hc
          rw [hc, hold] at h
          exact Option.noConfusion h
        obtain ⟨⟨pos', hp', hk'⟩, hcell⟩ := hw1 id' k h
        exact ⟨⟨pos', by simp [hne, hp'], hk'⟩, hcell⟩
      · exact hw2
  | some oldKey =>
      obtain ⟨⟨pos₀, hp₀, hk₀⟩, ⟨s₀, hs₀, hm₀⟩⟩ := hw1 id oldKey hold
      have hec : (gridRemove g id).entityCells = mdel g.entityCells id := by
        simp [gridRemove, hold]
      have hcs : (gridRemove g id).cellSize = g.cellSize := by
        simp [gridRemove, hold]
      have hcget : ∀ k', mget (gridRemove g id).cells k' =
          if k' = oldKey then (if setDel s₀ id = [] then none else some (setDel s₀ id))
          else mget g.cells k' := by
        intro k'
        simp only [gridRemove, hold, hs₀]
        by_cases hd : setDel s₀ id = []
        · simp [hd, mget_mdel]
        · simp [hd, mget_mset]
      constructor
      · intro id' k h
        rw [hec, mget_mdel] at h
        by_cases hid : id' = id
        · rw [if_pos hid] at h
          exact Option.noConfusion h
        · rw [if_neg hid] at h
          obtain ⟨⟨pos', hp', hk'⟩, ⟨s', hs', hm'⟩⟩ := hw1 id' k h
          refine ⟨⟨pos', by simp [hid, hp'], by rw [hcs]; exact hk'⟩, ?_⟩
          by_cases hkk : k = oldKey
          · subst hkk
            have hss : s' = s₀ := by
              rw [hs₀] at hs'
              exact (Option.some.injEq _ _).mp hs'.symm
            subst hss
            have hmem' : id' ∈ setDel s' id := by
              rw [mem_setDel]
              exact ⟨hm', hid⟩
            have hne : setDel s' id ≠ [] := by
              intro hc
              rw [hc] at hmem'
              exact absurd hmem' (List.not_mem_nil id')
            refine ⟨setDel s' id, ?_, hmem'⟩
            rw [hcget k, if_pos rfl, if_neg hne]
          · exact ⟨s', by rw [hcget k, if_neg hkk]; exact hs', hm'⟩
      · intro k s h
        rw [hcget k] at h
        by_cases hkk : k = oldKey
        · rw [if_pos hkk] at h
          by_cases hd : setDel s₀ id = []
          · rw [if_pos hd] at h
            exact Option.noConfusion h
          · rw [if_neg hd] at h
            have hss : s = setDel s₀ id := ((Option.some.injEq _ _).mp h).symm
            subst hss
            refine ⟨hd, fun id' hm' => ?_⟩
            rw [mem_setDel] at hm'
            have hold' := (hw2 oldKey s₀ hs₀).2 id' hm'.1
            rw [hec, mget_mdel, if_neg hm'.2, hkk]
            exact hold'
        · rw [if_neg hkk] at h
          obtain ⟨hne, hall⟩ := hw2 k s h
          refine ⟨hne, fun id' hm' => ?_⟩
          have hold' := hall id' hm'
          have hid : id' ≠ id := by
            intro hc
            rw [hc, hold] at hold'
            exact hkk ((Option.some.injEq _ _).mp hold').symm
          rw [hec, mget_mdel, if_neg hid]
          exact hold'

/-- After `gridRemove`, the id is unindexed. -/
theorem gridRemove_self_none (g : SpatialGrid) (id : String) :
    mget (gridRemove g id).entityCells id = none := by
  cases hold : mget g.entityCells id with
  | none =>
      have hg : gridRemove g id = g := by simp [gridRemove, hold]
      rw [hg]
      exact hold
  | some k => simp [gridRemove, hold, mget_mdel_self]

/-- The invariant transports across grids with extensionally equal maps and
equal cell size, and across pointwise-equal position trackers. -/
theorem GridWF_congr (g₁ g₂ : SpatialGrid) (p₁ p₂ : String → Option Triplet)
    (hcs : g₁.cellSize = g₂.cellSize)
    (hc : ∀ k, mget g₁.cells k = mget g₂.cells k)
    (he : ∀ x, mget g₁.entityCells x = mget g₂.entityCells x)
    (hp : ∀ x, p₁ x = p₂ x)
    (hw : GridWF g₁ p₁) : GridWF g₂ p₂ := by
  obtain ⟨hw1, hw2⟩ := hw
  constructor
  · intro id k h
    rw [← he id] at h
    obtain ⟨⟨pos', hp', hk'⟩, ⟨s', hs', hm'⟩⟩ := hw1 id k h
    exact ⟨⟨pos', by rw [← hp id]; exact hp', by rw [← hcs]; exact hk'⟩,
      ⟨s', by rw [← hc k]; exact hs', hm'⟩⟩
  · intro k s h
    rw [← hc k] at h
    obtain ⟨hne, hall⟩ := hw2 k s h
    exact ⟨hne, fun id hm => by rw [← he id]; exact hall id hm⟩

/-- When the cell key changes (or the id is unindexed), `gridUpdate` has the
same cells as remove-then-insert, and an extensionally equal index map. -/
theorem gridUpdate_decomp (g : SpatialGrid) (id : String) (pos : Triplet)
    (h : ¬ mget g.entityCells id = some (getCellKey pos.1 pos.2.2 g.cellSize)) :
    (gridUpdate g id pos).cellSize = (gridInsert (gridRemove g id) id pos).cellSize ∧
    (gridUpdate g id pos).cells = (gridInsert (gridRemove g id) id pos).cells ∧
    ∀ x, mget (gridUpdate g id pos).entityCells x =
      mget (gridInsert (gridRemove g id) id pos).entityCells x := by
  cases hold : mget g.entityCells id with
  | none =>
      have hrem : gridRemove g id = g := by simp [gridRemove, hold]
      have hne : ¬ mget g.entityCells id = some (getCellKey pos.1 pos.2.2 g.cellSize) := h
      refine ⟨?_, ?_, ?_⟩ <;>
        simp [gridUpdate, gridInsert, hold, hrem, hne]
  | some k =>
      have hne : ¬ mget g.entityCells id = some (getCellKey pos.1 pos.2.2 g.cellSize) := h
      have hif : ¬ (some k = some (getCellKey pos.1 pos.2.2 g.cellSize)) := by
        intro hc
        rw [hold] at hne
        exact hne hc
      refine ⟨?_, ?_, ?_⟩
      · simp [gridUpdate, gridInsert, gridRemove, hold, hif]
      · simp [gridUpdate, gridInsert, gridRemove, hold, hif]
      · intro x
        by_cases hx : x = id
        · subst hx
          simp [gridUpdate, gridInsert, gridRemove, hold, hif, mget_mset_self]
        · simp [gridUpdate, gridInsert, gridRemove, hold, hif,
            mget_mset_ne _ _ _ _ hx, mget_mdel_ne _ _ _ hx]

/-- `gridUpdate` preserves the invariant (with the id's tracked position
set to the new position). -/
theorem GridWF_gridUpdate (g : SpatialGrid) (p : String → Option Triplet)
    (id : String) (pos : Triplet) (hw : GridWF g p) :
    GridWF (gridUpdate g id pos) (fun x => if x = id then some pos else p x) := by
  by_cases heq : mget g.entityCells id = some (getCellKey pos.1 pos.2.2 g.cellSize)
  · have hg : gridUpdate g id pos = g := by simp [gridUpdate, heq]
    rw [hg]
    obtain ⟨hw1, hw2⟩ := hw
    constructor
    · intro id' k h
      by_cases hid : id' = id
      · subst hid
        have hk : k = getCellKey pos.1 pos.2.2 g.cellSize := by
          rw [heq] at h
          exact (Option.some.injEq _ _).mp h.symm
        obtain ⟨_, hcell⟩ := hw1 id' k h
        exact ⟨⟨pos, by simp, hk⟩, hcell⟩
      · obtain ⟨⟨pos', hp', hk'⟩, hcell⟩ := hw1 id' k h
        exact ⟨⟨pos', by simp [hid, hp'], hk'⟩, hcell⟩
    · exact hw2
  · obtain ⟨hcs, hcells, hec⟩ := gridUpdate_decomp g id pos heq
    have hrem := GridWF_gridRemove g p id hw
    have hins := GridWF_gridInsert (gridRemove g id)
      (fun x => if x = id then none else p x) id pos hrem (gridRemove_self_none g id)
    refine GridWF_congr _ _ _ _ hcs.symm (fun k => by rw [hcells]) (fun x => (hec x).symm)
      (fun x => ?_) hins
    by_cases hx : x = id <;> simp [hx]

/-- Amended claim C6: the invariant — each indexed id belongs to exactly one
cell's id-set, that cell's key is `floor(lastWrittenPos / cellSize)`, and no
empty cell remains — is preserved by every sequence of `gridRemove`,
`gridUpdate`, and `gridInsert` calls in which each insert targets an id not
currently indexed. (`gridInsert` on an already-present id overwrites the
index entry and adds the id to the new cell but does not remove it from its
previous cell, so it is excluded; see the counterexample.) -/
theorem claim_C6_amended (ops : List GridOp) (g : SpatialGrid)
    (p : String → Option Triplet) (hw : GridWF g p) (hfresh : opsFresh g ops) :
    GridWF (applyOps g ops) (trackPos p ops) := by
  induction ops generalizing g p with
  | nil => exact hw
  | cons op rest ih =>
      obtain ⟨hop, hrest⟩ := hfresh
      cases op with
      | ins id pos => exact ih _ _ (GridWF_gridInsert g p id pos hw hop) hrest
      | rem id => exact ih _ _ (GridWF_gridRemove g p id hw) hrest
      | upd id pos => exact ih _ _ (GridWF_gridUpdate g p id pos hw) hrest

/-- Double insert of the same id at positions in different cells. -/
def gridC2 : SpatialGrid :=
  gridInsert (gridInsert (createSpatialGrid 5) (toString 1) (0, 0, 0)) (toString 1) (7, 0, 7)

/-- Counterexample to C6 as stated: after `gridInsert` of an id already
present in cell (0,0) at a position in cell (1,1), the id belongs to the
id-sets of two cells at once — the second insert is not an overwrite that
clears the previous cell, so the exactly-one-cell invariant breaks. -/
theorem claim_C6_counterexample :
    mget gridC2.cells (0, 0) = some [toString 1] ∧
    mget gridC2.cells (1, 1) = some [toString 1] ∧
    mget gridC2.entityCells (toString 1) = some (1, 1) := by
  have hf0 : (Int.floor ((0 : ℚ) / 5) : ℤ) = 0 := by norm_num
  have hf7 : (Int.floor ((7 : ℚ) / 5) : ℤ) = 1 := by
    rw [Int.floor_eq_iff]
    norm_num
  have hk0 : getCellKey 0 0 5 = ((0 : ℤ), (0 : ℤ)) := by
    unfold getCellKey
    rw [hf0]
  have hk7 : getCellKey 7 7 5 = ((1 : ℤ), (1 : ℤ)) := by
    unfold getCellKey
    rw [hf7]
  have h1 : gridInsert (createSpatialGrid 5) (toString 1) (0, 0, 0) =
      { cellSize := 5, cells := [(((0 : ℤ), (0 : ℤ)), [toString 1])],
        entityCells := [(toString 1, ((0 : ℤ), (0 : ℤ)))] } := by
    simp [gridInsert, createSpatialGrid, hk0, mget, mset, List.find?]
  have h2 : gridC2 =
      { cellSize := 5, cells := [(((0 : ℤ), (0 : ℤ)), [toString 1]), (((1 : ℤ), (1 : ℤ)), [toString 1])],
        entityCells := [(toString 1, ((1 : ℤ), (1 : ℤ)))] } := by
    rw [show gridC2 = gridInsert (gridInsert (createSpatialGrid 5) (toString 1) (0, 0, 0)) (toString 1) (7, 0, 7) from rfl, h1]
    simp [gridInsert, hk7, mget, mset, List.find?]
  rw [h2]
  refine ⟨?_, ?_, ?_⟩ <;> simp [mget, List.find?]

/-- A fresh-insert / update / remove sequence on one id. -/
def opsC : List GridOp :=
  [GridOp.ins (toString 1) (1, 0, 1), GridOp.upd (toString 1) (7, 0, 7),
   GridOp.rem (toString 1)]

/-- Witness for the amended C6: the empty 5-unit grid is well-formed, the
concrete insert/update/remove sequence is insert-fresh, and the invariant
holds after running it. -/
theorem claim_C6_amended_witness :
    GridWF (createSpatialGrid 5) (fun _ => none) ∧
    opsFresh (createSpatialGrid 5) opsC ∧
    GridWF (applyOps (createSpatialGrid 5) opsC) (trackPos (fun _ => none) opsC) := by
  have hw := GridWF_empty 5
  have hfresh : opsFresh (createSpatialGrid 5) opsC := ⟨rfl, trivial, trivial, trivial⟩
  exact ⟨hw, hfresh, claim_C6_amended opsC _ _ hw hfresh⟩

/-! ## Claim C9 — fleeing priority and steering

The decision logic is proved against the exact real math functions
(`Real.sqrt`, `Real.sin`, `Real.cos`) substituted for the `Math` calls. -/

/-- The threat condition of the scan: another non-zombie consumer within
this agent's sense radius whose size exceeds this agent's size by more than
the predation factor. -/
def isThreat {a : Type} [LinearOrderedField a] (m : MathFns a) (blobPos : a × a)
    (senseRadius mySize : a) (myId : String) (b : BlobEntity a) : Prop :=
  b.id ≠ myId ∧ b.beingEatenBy = none ∧
  mySize * predationSizeFactor < b.genome.size ∧
  distance2D m blobPos (b.position.1, b.position.2.2) < senseRadius

/-- The flee normalization length `dist > 0.01 ? dist : 0.01`. -/
def threatLen {a : Type} [LinearOrderedField a] (m : MathFns a) (blobPos : a × a)
    (b : BlobEntity a) : a :=
  if 1/100 < distance2D m blobPos (b.position.1, b.position.2.2) then
    distance2D m blobPos (b.position.1, b.position.2.2)
  else 1/100

/-- The stored flee direction (away from the threat). -/
def threatDir {a : Type} [LinearOrderedField a] (m : MathFns a) (blobPos : a × a)
    (b : BlobEntity a) : a × a :=
  (-(b.position.1 - blobPos.1) / threatLen m blobPos b,
   -(b.position.2.2 - blobPos.2) / threatLen m blobPos b)

/-- Invariant of the threat fold state over the processed prefix: either
nothing found and no threat processed, or the state holds the data of a
processed threat of minimal distance. -/
def ThreatAcc {a : Type} [LinearOrderedField a] (m : MathFns a) (blobPos : a × a)
    (senseRadius mySize : a) (myId : String) (processed : List (BlobEntity a))
    (acc : Option String × WithTop a × Option (a × a)) : Prop :=
  (acc = (none, ⊤, none) ∧ ∀ b ∈ processed, ¬ isThreat m blobPos senseRadius mySize myId b) ∨
  (∃ b ∈ processed, isThreat m blobPos senseRadius mySize myId b ∧
    acc.1 = some b.id ∧
    acc.2.1 = ((distance2D m blobPos (b.position.1, b.position.2.2) : a) : WithTop a) ∧
    acc.2.2 = some (threatDir m blobPos b) ∧
    ∀ b' ∈ processed, isThreat m blobPos senseRadius mySize myId b' →
      distance2D m blobPos (b.position.1, b.position.2.2) ≤
        distance2D m blobPos (b'.position.1, b'.position.2.2))

/-- Extending the processed prefix with a non-threat preserves the fold
invariant with the state unchanged. -/
theorem ThreatAcc_extend_not {a : Type} [LinearOrderedField a] (m : MathFns a)
    (blobPos : a × a) (senseRadius mySize : a) (myId : String)
    (processed : List (BlobEntity a)) (acc : Option String × WithTop a × Option (a × a))
    (b : BlobEntity a) (hnt : ¬ isThreat m blobPos senseRadius mySize myId b)
    (h : ThreatAcc m blobPos senseRadius mySize myId processed acc) :
    ThreatAcc m blobPos senseRadius mySize myId (processed ++ [b]) acc := by
  rcases h with ⟨ha, hall⟩ | ⟨b₀, hb₀, ht₀, h1, h2, h3, hmin⟩
  · left
    refine ⟨ha, fun b' hb' => ?_⟩
    rcases List.mem_append.mp hb' with hmem | hmem
    · exact hall b' hmem
    · rw [List.mem_singleton] at hmem
      subst hmem
      exact hnt
  · right
    refine ⟨b₀, List.mem_append_left _ hb₀, ht₀, h1, h2, h3, fun b' hb' ht' => ?_⟩
    rcases List.mem_append.mp hb' with hmem | hmem
    · exact hmin b' hmem ht'
    · rw [List.mem_singleton] at hmem
      subst hmem
      exact absurd ht' hnt

/-- The x-offset is a lower bound on the real 2D distance. -/
theorem abs_fst_le_distance2D (p q : ℝ × ℝ) :
    |q.1 - p.1| ≤ distance2D ⟨Real.sqrt, Real.sin, Real.cos⟩ p q := by
  unfold distance2D
  have h1 : (p.1 - q.1) ^ 2 ≤ (p.1 - q.1) ^ 2 + (p.2 - q.2) ^ 2 :=
    le_add_of_nonneg_right (sq_nonneg _)
  calc |q.1 - p.1| = Real.sqrt ((p.1 - q.1) ^ 2) := by
        rw [Real.sqrt_sq_eq_abs, abs_sub_comm]
    _ ≤ _ := Real.sqrt_le_sqrt h1

/-- The z-offset is a lower bound on the real 2D distance. -/
theorem abs_snd_le_distance2D (p q : ℝ × ℝ) :
    |q.2 - p.2| ≤ distance2D ⟨Real.sqrt, Real.sin, Real.cos⟩ p q := by
  unfold distance2D
  have h1 : (p.2 - q.2) ^ 2 ≤ (p.1 - q.1) ^ 2 + (p.2 - q.2) ^ 2 :=
    le_add_of_nonneg_left (sq_nonneg _)
  calc |q.2 - p.2| = Real.sqrt ((p.2 - q.2) ^ 2) := by
        rw [Real.sqrt_sq_eq_abs, abs_sub_comm]
    _ ≤ _ := Real.sqrt_le_sqrt h1

/-- One step of the threat fold preserves the invariant. -/
theorem threatStep_preserve (blobPos : ℝ × ℝ) (senseRadius mySize : ℝ) (myId : String)
    (processed : List (BlobEntity ℝ)) (acc : Option String × WithTop ℝ × Option (ℝ × ℝ))
    (b : BlobEntity ℝ)
    (h : ThreatAcc ⟨Real.sqrt, Real.sin, Real.cos⟩ blobPos senseRadius mySize myId processed acc) :
    ThreatAcc ⟨Real.sqrt, Real.sin, Real.cos⟩ blobPos senseRadius mySize myId (processed ++ [b])
      (threatStep ⟨Real.sqrt, Real.sin, Real.cos⟩ blobPos senseRadius myId mySize acc b) := by
  by_cases h1 : b.id = myId
  · have hstep : threatStep ⟨Real.sqrt, Real.sin, Real.cos⟩ blobPos senseRadius myId mySize acc b = acc := by
      simp [threatStep, h1]
    rw [hstep]
    exact ThreatAcc_extend_not _ _ _ _ _ _ _ _ (fun ht => ht.1 h1) h
  · cases hz : b.beingEatenBy with
    | some u =>
        have hstep : threatStep ⟨Real.sqrt, Real.sin, Real.cos⟩ blobPos senseRadius myId mySize acc b = acc := by
          simp [threatStep, h1, hz]
        rw [hstep]
        refine ThreatAcc_extend_not _ _ _ _ _ _ _ _ (fun ht => ?_) h
        rw [ht.2.1] at hz
        exact Option.noConfusion hz
    | none =>
        by_cases h3 : senseRadius < |b.position.1 - blobPos.1|
        · have hstep : threatStep ⟨Real.sqrt, Real.sin, Real.cos⟩ blobPos senseRadius myId mySize acc b = acc := by
            simp [threatStep, h1, hz, h3]
          rw [hstep]
          refine ThreatAcc_extend_not _ _ _ _ _ _ _ _ (fun ht => ?_) h
          have hle := abs_fst_le_distance2D blobPos (b.position.1, b.position.2.2)
          exact absurd ht.2.2.2 (not_lt.mpr (le_trans (le_of_lt h3) hle))
        · by_cases h4 : senseRadius < |b.position.2.2 - blobPos.2|
          · have hstep : threatStep ⟨Real.sqrt, Real.sin, Real.cos⟩ blobPos senseRadius myId mySize acc b = acc := by
              simp [threatStep, h1, hz, h3, h4]
            rw [hstep]
            refine ThreatAcc_extend_not _ _ _ _ _ _ _ _ (fun ht => ?_) h
            have hle := abs_snd_le_distance2D blobPos (b.position.1, b.position.2.2)
            exact absurd ht.2.2.2 (not_lt.mpr (le_trans (le_of_lt h4) hle))
          · by_cases hc : mySize * predationSizeFactor < b.genome.size ∧
                distance2D ⟨Real.sqrt, Real.sin, Real.cos⟩ blobPos (b.position.1, b.position.2.2) < senseRadius ∧
                ((distance2D ⟨Real.sqrt, Real.sin, Real.cos⟩ blobPos (b.position.1, b.position.2.2) : ℝ) : WithTop ℝ) < acc.2.1
            · have hstep : threatStep ⟨Real.sqrt, Real.sin, Real.cos⟩ blobPos senseRadius myId mySize acc b =
                  (some b.id,
                   ((distance2D ⟨Real.sqrt, Real.sin, Real.cos⟩ blobPos (b.position.1, b.position.2.2) : ℝ) : WithTop ℝ),
                   some (threatDir ⟨Real.sqrt, Real.sin, Real.cos⟩ blobPos b)) := by
                simp [threatStep, h1, hz, h3, h4, hc, threatDir, threatLen]
              rw [hstep]
              have hthb : isThreat ⟨Real.sqrt, Real.sin, Real.cos⟩ blobPos senseRadius mySize myId b :=
                ⟨h1, hz, hc.1, hc.2.1⟩
              right
              refine ⟨b, List.mem_append_right _ (List.mem_singleton.mpr rfl), hthb,
                rfl, rfl, rfl, ?_⟩
              intro b' hb' ht'
              rcases List.mem_append.mp hb' with hmem | hmem
              · rcases h with ⟨_, hall⟩ | ⟨b₀, hb₀, ht₀, ha1, ha2, ha3, hmin⟩
                · exact absurd ht' (hall b' hmem)
                · have hlt : distance2D ⟨Real.sqrt, Real.sin, Real.cos⟩ blobPos (b.position.1, b.position.2.2) <
                      distance2D ⟨Real.sqrt, Real.sin, Real.cos⟩ blobPos (b₀.position.1, b₀.position.2.2) := by
                    have hw := hc.2.2
                    rw [ha2] at hw
                    exact_mod_cast hw
                  exact le_trans (le_of_lt hlt) (hmin b' hmem ht')
              · rw [List.mem_singleton] at hmem
                subst hmem
                exact le_refl _
            · have hstep : threatStep ⟨Real.sqrt, Real.sin, Real.cos⟩ blobPos senseRadius myId mySize acc b = acc := by
                simp only [threatStep, h1, hz]
                simp [h3, h4, hc]
              rw [hstep]
              rcases h with ⟨ha, hall⟩ | ⟨b₀, hb₀, ht₀, ha1, ha2, ha3, hmin⟩
              · refine ThreatAcc_extend_not _ _ _ _ _ _ _ _ (fun ht => hc ⟨ht.2.2.1, ht.2.2.2, ?_⟩)
                  (Or.inl ⟨ha, hall⟩)
                rw [show acc.2.1 = (⊤ : WithTop ℝ) from by rw [ha]]
                exact WithTop.coe_lt_top _
              · by_cases hth : isThreat ⟨Real.sqrt, Real.sin, Real.cos⟩ blobPos senseRadius mySize myId b
                · right
                  refine ⟨b₀, List.mem_append_left _ hb₀, ht₀, ha1, ha2, ha3, ?_⟩
                  intro b' hb' ht'
                  rcases List.mem_append.mp hb' with hmem | hmem
                  · exact hmin b' hmem ht'
                  · rw [List.mem_singleton] at hmem
                    subst hmem
                    have hnl : ¬ (((distance2D ⟨Real.sqrt, Real.sin, Real.cos⟩ blobPos (b'.position.1, b'.position.2.2) : ℝ) : WithTop ℝ) < acc.2.1) :=
                      fun hlt => hc ⟨hth.2.2.1, hth.2.2.2, hlt⟩
                    rw [ha2] at hnl
                    exact_mod_cast not_lt.mp hnl
                · exact ThreatAcc_extend_not _ _ _ _ _ _ _ _ hth
                    (Or.inr ⟨b₀, hb₀, ht₀, ha1, ha2, ha3, hmin⟩)

/-- The threat fold maintains its invariant along any suffix. -/
theorem threatScan_go (blobPos : ℝ × ℝ) (senseRadius mySize : ℝ) (myId : String) :
    ∀ (rest processed : List (BlobEntity ℝ)) (acc : Option String × WithTop ℝ × Option (ℝ × ℝ)),
      ThreatAcc ⟨Real.sqrt, Real.sin, Real.cos⟩ blobPos senseRadius mySize myId processed acc →
      ThreatAcc ⟨Real.sqrt, Real.sin, Real.cos⟩ blobPos senseRadius mySize myId (processed ++ rest)
        (rest.foldl (threatStep ⟨Real.sqrt, Real.sin, Real.cos⟩ blobPos senseRadius myId mySize) acc) := by
  intro rest
  induction rest with
  | nil =>
      intro processed acc h
      simpa using h
  | cons b rest' ih =>
      intro processed acc h
      have h' := threatStep_preserve blobPos senseRadius mySize myId processed acc b h
      have h'' := ih (processed ++ [b]) _ h'
      simpa [List.append_assoc] using h''

/-- The completed threat scan satisfies the invariant over the whole list. -/
theorem threatScan_spec (blobPos : ℝ × ℝ) (senseRadius mySize : ℝ) (myId : String)
    (blobs : List (BlobEntity ℝ)) :
    ThreatAcc ⟨Real.sqrt, Real.sin, Real.cos⟩ blobPos senseRadius mySize myId blobs
      (threatScan ⟨Real.sqrt, Real.sin, Real.cos⟩ blobPos senseRadius myId mySize blobs) := by
  have h0 : ThreatAcc ⟨Real.sqrt, Real.sin, Real.cos⟩ blobPos senseRadius mySize myId []
      ((none : Option String), (⊤ : WithTop ℝ), (none : Option (ℝ × ℝ))) :=
    Or.inl ⟨rfl, by simp⟩
  have h1 := threatScan_go blobPos senseRadius mySize myId blobs [] _ h0
  simpa [threatScan] using h1

/-- Claim C9: whenever some non-zombie other consumer within the agent's
sense radius has size strictly greater than `predationSizeFactor` times the
agent's size, `tick` returns state FLEEING with a blob target — taking
priority over Eating and Hunting whatever the foods are, even a strictly
closer resource — the boundary force is still added, the selected threat
has minimal distance among all threats, and (when its distance exceeds the
0.01 normalization floor) the steering vector is the unit vector away from
that nearest threat scaled by `FLEE_FORCE` times the agent's speed trait,
with total force equal to steering plus boundary avoidance. -/
theorem claim_C9 (blobPos : ℝ × ℝ) (senseRadius : ℝ) (foods : List (FoodEntity ℝ))
    (blobs : List (BlobEntity ℝ)) (myId : String)
    (mySize wanderSeed speedMultiplier timeRemaining : ℝ)
    (hex : ∃ b ∈ blobs, isThreat ⟨Real.sqrt, Real.sin, Real.cos⟩ blobPos senseRadius mySize myId b) :
    (tick ⟨Real.sqrt, Real.sin, Real.cos⟩ blobPos senseRadius foods blobs myId mySize wanderSeed speedMultiplier timeRemaining).state = BlobState.FLEEING ∧
    (tick ⟨Real.sqrt, Real.sin, Real.cos⟩ blobPos senseRadius foods blobs myId mySize wanderSeed speedMultiplier timeRemaining).targetType = some TargetType.blob ∧
    (tick ⟨Real.sqrt, Real.sin, Real.cos⟩ blobPos senseRadius foods blobs myId mySize wanderSeed speedMultiplier timeRemaining).boundaryVector = calculateBoundaryForce ⟨Real.sqrt, Real.sin, Real.cos⟩ blobPos ∧
    ∃ b ∈ blobs, isThreat ⟨Real.sqrt, Real.sin, Real.cos⟩ blobPos senseRadius mySize myId b ∧
      (tick ⟨Real.sqrt, Real.sin, Real.cos⟩ blobPos senseRadius foods blobs myId mySize wanderSeed speedMultiplier timeRemaining).targetId = some b.id ∧
      (tick ⟨Real.sqrt, Real.sin, Real.cos⟩ blobPos senseRadius foods blobs myId mySize wanderSeed speedMultiplier timeRemaining).targetDistance =
        ((distance2D ⟨Real.sqrt, Real.sin, Real.cos⟩ blobPos (b.position.1, b.position.2.2) : ℝ) : WithTop ℝ) ∧
      (∀ b' ∈ blobs, isThreat ⟨Real.sqrt, Real.sin, Real.cos⟩ blobPos senseRadius mySize myId b' →
        distance2D ⟨Real.sqrt, Real.sin, Real.cos⟩ blobPos (b.position.1, b.position.2.2) ≤
          distance2D ⟨Real.sqrt, Real.sin, Real.cos⟩ blobPos (b'.position.1, b'.position.2.2)) ∧
      (1/100 < distance2D ⟨Real.sqrt, Real.sin, Real.cos⟩ blobPos (b.position.1, b.position.2.2) →
        (tick ⟨Real.sqrt, Real.sin, Real.cos⟩ blobPos senseRadius foods blobs myId mySize wanderSeed speedMultiplier timeRemaining).steeringVector =
          ((blobPos.1 - b.position.1) / distance2D ⟨Real.sqrt, Real.sin, Real.cos⟩ blobPos (b.position.1, b.position.2.2) * FLEE_FORCE * speedMultiplier,
           (blobPos.2 - b.position.2.2) / distance2D ⟨Real.sqrt, Real.sin, Real.cos⟩ blobPos (b.position.1, b.position.2.2) * FLEE_FORCE * speedMultiplier)) ∧
      (tick ⟨Real.sqrt, Real.sin, Real.cos⟩ blobPos senseRadius foods blobs myId mySize wanderSeed speedMultiplier timeRemaining).totalForce =
        ((tick ⟨Real.sqrt, Real.sin, Real.cos⟩ blobPos senseRadius foods blobs myId mySize wanderSeed speedMultiplier timeRemaining).steeringVector.1 +
          (calculateBoundaryForce ⟨Real.sqrt, Real.sin, Real.cos⟩ blobPos).1,
         (tick ⟨Real.sqrt, Real.sin, Real.cos⟩ blobPos senseRadius foods blobs myId mySize wanderSeed speedMultiplier timeRemaining).steeringVector.2 +
          (calculateBoundaryForce ⟨Real.sqrt, Real.sin, Real.cos⟩ blobPos).2) := by
  have hspec := threatScan_spec blobPos senseRadius mySize myId blobs
  rcases hspec with ⟨_, hall⟩ | ⟨b, hb, ht, h1, h2, h3, hmin⟩
  · obtain ⟨b, hb, ht⟩ := hex
    exact absurd ht (hall b hb)
  · have htick : tick ⟨Real.sqrt, Real.sin, Real.cos⟩ blobPos senseRadius foods blobs myId mySize wanderSeed speedMultiplier timeRemaining =
        { state := BlobState.FLEEING
          steeringVector := ((threatDir ⟨Real.sqrt, Real.sin, Real.cos⟩ blobPos b).1 * FLEE_FORCE * speedMultiplier,
                             (threatDir ⟨Real.sqrt, Real.sin, Real.cos⟩ blobPos b).2 * FLEE_FORCE * speedMultiplier)
          boundaryVector := calculateBoundaryForce ⟨Real.sqrt, Real.sin, Real.cos⟩ blobPos
          totalForce := ((threatDir ⟨Real.sqrt, Real.sin, Real.cos⟩ blobPos b).1 * FLEE_FORCE * speedMultiplier +
                          (calculateBoundaryForce ⟨Real.sqrt, Real.sin, Real.cos⟩ blobPos).1,
                         (threatDir ⟨Real.sqrt, Real.sin, Real.cos⟩ blobPos b).2 * FLEE_FORCE * speedMultiplier +
                          (calculateBoundaryForce ⟨Real.sqrt, Real.sin, Real.cos⟩ blobPos).2)
          targetId := some b.id
          targetDistance := (threatScan ⟨Real.sqrt, Real.sin, Real.cos⟩ blobPos senseRadius myId mySize blobs).2.1
          targetType := some TargetType.blob } := by
      simp only [tick, h1, h3]
    refine ⟨by rw [htick], by rw [htick], by rw [htick], b, hb, ht, by rw [htick],
      by rw [htick]; exact h2, hmin, ?_, by rw [htick]⟩
    intro hd
    rw [htick]
    simp only [threatDir, threatLen, if_pos hd, neg_sub]

/-- Witness for C9: an agent of size 0.5 at the origin with sense radius 10
sees a non-zombie neighbour of size 0.61 at distance 3 (ratio 1.22 > 1.2)
and a strictly closer food at distance 1 — the tick returns FLEEING. -/
theorem claim_C9_witness :
    (∃ b ∈ [BlobEntity.mk (toString 5) ((3 : ℝ), 0, 0) 100 (Genome.mk 1 (61/100) 5) 0 none none 1 none],
      isThreat ⟨Real.sqrt, Real.sin, Real.cos⟩ ((0 : ℝ), (0 : ℝ)) 10 (1/2) (toString 0) b) ∧
    (tick ⟨Real.sqrt, Real.sin, Real.cos⟩ ((0 : ℝ), (0 : ℝ)) 10
      [FoodEntity.mk (toString 7) ((1 : ℝ), 0, 0)]
      [BlobEntity.mk (toString 5) ((3 : ℝ), 0, 0) 100 (Genome.mk 1 (61/100) 5) 0 none none 1 none]
      (toString 0) (1/2) 0 1 30).state = BlobState.FLEEING := by
  have hdist : distance2D ⟨Real.sqrt, Real.sin, Real.cos⟩ ((0 : ℝ), (0 : ℝ)) ((3 : ℝ), (0 : ℝ)) = 3 := by
    unfold distance2D
    rw [show ((0 : ℝ) - 3) ^ 2 + ((0 : ℝ) - 0) ^ 2 = 3 ^ 2 by norm_num]
    exact Real.sqrt_sq (by norm_num)
  have hex : ∃ b ∈ [BlobEntity.mk (toString 5) ((3 : ℝ), 0, 0) 100 (Genome.mk 1 (61/100) 5) 0 none none 1 none],
      isThreat ⟨Real.sqrt, Real.sin, Real.cos⟩ ((0 : ℝ), (0 : ℝ)) 10 (1/2) (toString 0) b := by
    refine ⟨_, List.mem_singleton.mpr rfl, ?_, rfl, ?_, ?_⟩
    · decide
    · norm_num [predationSizeFactor]
    · rw [show ((BlobEntity.mk (toString 5) ((3 : ℝ), 0, 0) 100 (Genome.mk 1 (61/100) 5) 0 none none 1 none).position.1,
          (BlobEntity.mk (toString 5) ((3 : ℝ), 0, 0) 100 (Genome.mk 1 (61/100) 5) 0 none none 1 none).position.2.2) =
          ((3 : ℝ), (0 : ℝ)) from rfl, hdist]
      norm_num
  exact ⟨hex, (claim_C9 ((0 : ℝ), (0 : ℝ)) 10 _ _ (toString 0) (1/2) 0 1 30 hex).1⟩

end Evo
